import Mathlib

/-!
Verification of `miner_models/lead_auditor.py` (LeadPoet lead auditor).

The Python module is shallowly embedded: every validator becomes an
executable Lean function over a model of Python values, and the claims of
the specification are settled as theorems about those functions.

Modelling conventions, stated once here:
* Python `str` is modelled by `String` (a list of unicode scalar values,
  matching Python's sequence-of-code-points view).
* `str.lower()`, `str.isalpha()`, `str.isdigit()` and the regex classes
  `\w`, `\d`, `\s` are modelled at ASCII precision, which is exact on all
  ASCII inputs (the dictionaries and patterns in the source are ASCII).
* Python float comparisons such as `digits / len > 0.5` are modelled by
  the exact integer inequalities they decide (the rationals involved are
  far from any double-rounding boundary at string lengths).
* Python `dict` iteration order is insertion order and is modelled by
  association lists in source order; `set` iteration order is unspecified
  in Python and is modelled as first-occurrence order where it can only
  affect which single error string of a check is emitted.
-/

set_option maxHeartbeats 1000000

namespace LeadAuditor

/-- Model of the Python values a lead dictionary may hold.  Only the
shapes exercised by `lead_auditor.py` are included. -/
inductive PyVal where
  | str (s : String)
  | bool (b : Bool)
  | int (n : Int)
  | none
deriving DecidableEq, Repr

/-- Python truthiness (`if not value`). -/
def pyTruthy : PyVal → Bool
  | .str s => !s.isEmpty
  | .bool b => b
  | .int n => n != 0
  | .none => false

/-- Python `str(value)`. -/
def pyStr : PyVal → String
  | .str s => s
  | .bool true => "True"
  | .bool false => "False"
  | .int n => toString n
  | .none => "None"

/-- Python whitespace as stripped by `str.strip()` and matched by `\s`
(ASCII part). -/
def isPyWs (c : Char) : Bool :=
  c == ' ' || c == '\t' || c == '\n' || c == '\r' || c == '\x0b' || c == '\x0c'

/-- `str.strip()` on a list of characters. -/
def stripList (l : List Char) : List Char :=
  ((l.dropWhile isPyWs).reverse.dropWhile isPyWs).reverse

/-- `str.strip()`. -/
def pyStrip (s : String) : String := ⟨stripList s.data⟩

/-- `str.rstrip()` (no argument: strips trailing whitespace). -/
def pyRstrip (s : String) : String := ⟨(s.data.reverse.dropWhile isPyWs).reverse⟩

/-- `str.lower()` at ASCII precision. -/
def lowerChar (c : Char) : Char :=
  if 'A' ≤ c && c ≤ 'Z' then Char.ofNat (c.toNat + 32) else c

/-- `str.lower()` on a string. -/
def lowerStr (s : String) : String := ⟨s.data.map lowerChar⟩

/-- `sub` occurs as a contiguous infix of `hay`. -/
def isInfixList (sub : List Char) : List Char → Bool
  | [] => sub.isEmpty
  | c :: rest => sub.isPrefixOf (c :: rest) || isInfixList sub rest

/-- Python substring test `sub in hay`. -/
def containsSub (hay sub : String) : Bool := isInfixList sub.data hay.data

/-- Python `hay.startswith(p)`. -/
def startsWithStr (hay p : String) : Bool := p.data.isPrefixOf hay.data

/-- Python `hay.endswith(p)`. -/
def endsWithStr (hay p : String) : Bool := p.data.isSuffixOf hay.data

/-- Python `str.split(sep)` for a single-character separator (keeps empty
pieces, like Python). -/
def splitList (c : Char) : List Char → List (List Char)
  | [] => [[]]
  | x :: rest =>
    let r := splitList c rest
    if x == c then [] :: r
    else
      match r with
      | [] => [[x]]
      | h :: t => (x :: h) :: t

/-- Python `str.split()` with no argument: split on whitespace runs,
dropping empty pieces. -/
def pyWordsList (l : List Char) : List (List Char) :=
  (l.splitOnP isPyWs).filter (fun w => !w.isEmpty)

/-- `str.split()` returning strings. -/
def pyWords (s : String) : List String :=
  (pyWordsList s.data).map (fun l => (⟨l⟩ : String))

/-- Regex `\w` at ASCII precision: letters, digits, underscore. -/
def isWordChar (c : Char) : Bool := c.isAlphanum || c == '_'

/-- Maximal runs of characters satisfying `p` (used to model
`re.findall(r'\b\w+\b', s)`). -/
def runsAux (p : Char → Bool) : List Char → List Char → List (List Char)
  | [], acc => if acc.isEmpty then [] else [acc.reverse]
  | c :: rest, acc =>
    if p c then runsAux p rest (c :: acc)
    else if acc.isEmpty then runsAux p rest acc
    else acc.reverse :: runsAux p rest []

/-- The whole words of a string: `re.findall(r'\b\w+\b', s)`. -/
def wordsOf (s : String) : List String :=
  (runsAux isWordChar s.data []).map (fun l => (⟨l⟩ : String))

/-- `ROLE_TYPOS`: canonical word to list of misspellings, in source order. -/
def ROLE_TYPOS : List (String × List String) := [
  ("manager", ["manger", "maneger", "managr", "mangaer", "manaager", "managar", "manageer", "maanger", "mamager", "mnager", "mangager", "mananger", "managaer", "managre", "maager", "managerr", "mananager", "manater", "maneger"]),
  ("management", ["managment", "managemnt", "manegement", "managament", "mangement", "managenment", "managerment", "managemnet", "managemetn"]),
  ("director", ["directer", "directur", "direcor", "directot", "drector", "direktor", "diector", "directior", "directr", "direcctor", "dirctor", "directore", "derector", "directoer", "direcotr", "directoor"]),
  ("engineer", ["enginer", "enginear", "enigneer", "engineeer", "enginner", "enginere", "engeneer", "engnieer", "engieer", "engieneer", "engineerr", "enginee", "enegineer", "engineir", "engenear", "engineear", "engienear", "engineerng"]),
  ("engineering", ["enginnering", "enginering", "engeneering", "enginneering", "engineerig", "engineerng", "engieneering", "engineerring"]),
  ("developer", ["develper", "developper", "devloper", "develoer", "develeoper", "devoloper", "developor", "develope", "develoepr", "developr", "devleoper", "develpoer", "develloper", "developeer"]),
  ("development", ["developement", "devlopment", "develoment", "developmnet", "develepoment", "developmentt", "developmnt", "develepment", "developmet"]),
  ("analyst", ["analist", "analys", "analysit", "anlyst", "analyist", "annalyst", "analayst", "analst", "analyyst", "analyet", "analyts", "anaylst"]),
  ("consultant", ["consulant", "consultent", "consutant", "consaltant", "consultat", "consultnat", "consulent", "consultannt", "consultanat", "consulatnt"]),
  ("specialist", ["specalist", "specilist", "specialst", "spcialist", "specailist", "specialits", "speicalist", "specialsit", "speciliast"]),
  ("coordinator", ["cordinator", "coodinator", "coordiantor", "coordinater", "cooridnator", "coordnator", "corrdinator", "coordiator", "coordintor", "cordinater"]),
  ("executive", ["excutive", "exective", "executiv", "executve", "exucutive", "exectuive", "executivee", "exectutive", "executibe", "execuitve", "executuve"]),
  ("assistant", ["assitant", "asistant", "assistnat", "assisant", "assitent", "asisstant", "assistent", "assistatn", "assisatnt", "assisstant"]),
  ("president", ["presidant", "presedent", "presiden", "presidnet", "presindent", "presient", "presidnt", "presidenet"]),
  ("senior", ["senoir", "seinor", "snior", "senioe", "seior", "senor", "senioor"]),
  ("junior", ["junoir", "junioe", "jnior", "junor", "juior"]),
  ("architect", ["architec", "arcitect", "architecht", "architech", "artchitect", "architct", "archtiect", "architectt", "archirect"]),
  ("accountant", ["accountent", "acountant", "accountan", "acocuntant", "accoutant", "accountnat", "accounant", "accountat", "accontant"]),
  ("administrator", ["administator", "adminstrator", "adminisrator", "adminsitrator", "adminstator", "administrater", "adminitrator", "administraor"]),
  ("representative", ["representive", "represenative", "representaive", "represetative", "representatie", "representativee", "representatve", "represntative"]),
  ("supervisor", ["superviser", "supervior", "supervsior", "suprevisor", "supervisior", "supervisr", "superivsor", "superviosr", "supervisoor"]),
  ("marketing", ["markting", "marketng", "makreting", "markeeting", "marketign", "marekting", "martketing", "marketinng", "marketin"]),
  ("operations", ["opertions", "operatons", "oprations", "operatiosn", "opeartions", "operatins", "operaions", "opertaions"]),
  ("finance", ["finace", "finanace", "financ", "fianance", "finacne", "fiannce"]),
  ("financial", ["finacial", "financal", "finanical", "financila", "finanaical"]),
  ("associate", ["assocaite", "asociate", "assoicate", "assocate", "associte", "associat", "asscoiate", "associae"]),
  ("founder", ["foundr", "foundre", "founer", "foudner", "foundeer", "founde"]),
  ("officer", ["oficer", "offcer", "officr", "offcier", "offier", "officeer"]),
  ("partner", ["partener", "parter", "partnr", "partenr", "partne", "partneer"]),
  ("technician", ["techician", "techncian", "technicain", "technican", "technicina"]),
  ("technical", ["techincal", "tehcnical", "tecnical", "techical", "technicla"]),
  ("technology", ["technolgy", "techonology", "technoloy", "techology", "technologyy"]),
  ("recruiter", ["recuiter", "recruter", "recruitor", "recrutier", "recruitr"]),
  ("attorney", ["attoney", "attorny", "atorney", "attornet", "attornney", "attoreny"]),
  ("designer", ["desinger", "desginer", "designr", "deisgner", "designeer", "desiner"]),
  ("strategist", ["strategis", "startegist", "stratagist", "stategist", "strategsit"]),
  ("business", ["busines", "buisness", "bussiness", "busniess", "buisines", "bussines", "businss", "busienss", "busniness", "bsuiness"]),
  ("customer", ["custmer", "cutomer", "custormer", "cusotmer", "customr", "custommer"]),
  ("product", ["prodcut", "porduct", "prduct", "proudct", "produc", "producct"]),
  ("project", ["porject", "proejct", "projec", "prject", "proect", "projct"]),
  ("software", ["sofware", "sotware", "softwre", "softare", "sofwtare", "softwear"]),
  ("professional", ["proffesional", "profesional", "proffessional", "professinal", "professionl", "professonal", "profssional", "professsional"]),
  ("corporate", ["corproate", "coporate", "corporat", "corpoarte", "coroprate"]),
  ("support", ["suport", "supprot", "supprt", "suppoort", "suppport"]),
  ("service", ["servcie", "serivce", "sevice", "servic", "servcice"]),
  ("security", ["secuirty", "securtiy", "secutiry", "securty", "secuiryt"]),
  ("resource", ["resoruce", "resourc", "resrouce", "reource"]),
  ("principal", ["princpal", "prinicpal", "pricipal", "principla", "prnicipal"]),
  ("commercial", ["commerical", "comercial", "commericial", "commercail"]),
  ("regional", ["reginal", "regioanl", "regioal", "regionl", "reagional"]),
  ("national", ["natioal", "nationl", "natoinal", "nationla", "naitonal"]),
  ("international", ["internatioanl", "internatinal", "interantional", "internationl"]),
  ("general", ["genral", "generl", "genaral", "generla", "genearl"]),
  ("compliance", ["complience", "compliace", "compliane", "complicance"]),
  ("procurement", ["procurment", "procuremnt", "procuremennt", "procurrement"]),
  ("acquisition", ["aquisition", "acquistion", "acquisiton", "acqusition"]),
  ("logistics", ["logisitics", "logisitcs", "logstics", "logistcs"]),
  ("manufacturing", ["manufacuring", "manufaturing", "manufacturng", "manufactruing"]),
  ("pharmaceutical", ["pharmeceutical", "pharamceutical", "pharmaceuitcal"]),
  ("healthcare", ["heathcare", "helathcare", "healtcare", "healthcre"]),
  ("education", ["educaton", "educaiton", "educaion", "eductaion"]),
  ("government", ["goverment", "governmnet", "govenrment", "govermnent"]),
  ("investment", ["investmnet", "investement", "investemnt", "invesment"]),
  ("insurance", ["insurace", "insurnace", "insurence", "insurancce"]),
  ("leadership", ["leaderhsip", "leadershi", "leadershp", "leadeership"]),
  ("entrepreneur", ["entrepeneur", "entreprener", "entreprenuer", "entreprneur", "enterprenuer", "entreperneur", "entreprenur"]),
  ("certified", ["certifed", "certiifed", "cetified", "cretified", "certifeid"])]
/-- `ROLE_PLACEHOLDERS` from the source. -/
def ROLE_PLACEHOLDERS : List String := [
  "asdfgh", "qwerty", "zxcvbn", "asdf", "qwer", "zxcv", "aaaaaa", "bbbbbb", "test", "testing",
  "xxx", "yyy", "zzz", "null", "undefined", "none", "n/a", "na", "tbd", "tba", "placeholder",
  "temp", "todo", "fixme", "abc", "xyz"]
/-- `ROLE_SCAM_PATTERNS` from the source. -/
def ROLE_SCAM_PATTERNS : List String := [
  "work from home", "work at home", "make money", "earn money", "passive income", "get rich",
  "easy money", "be your own boss", "mlm", "multi level marketing", "network marketing",
  "crypto trader", "forex trader", "bitcoin trader", "day trader", "investment opportunity",
  "financial freedom", "side hustle", "join my team", "dm me", "click link", "link in bio",
  "work online", "online business", "home based"]
/-- `ROLE_URL_TLDS` from the source. -/
def ROLE_URL_TLDS : List String := [
  "com", "org", "io", "ai", "co", "dev", "app", "xyz", "me", "ly", "gg", "edu", "gov", "info",
  "biz", "tech", "cloud", "online", "site", "store", "us", "uk", "ca", "de", "fr", "in", "au",
  "nl", "es", "it", "br", "jp", "kr", "cn", "ru", "tv", "fm", "games", "life", "work",
  "realty", "agency", "digital", "media", "world", "global", "solutions", "services",
  "consulting", "network", "systems", "ventures", "capital", "finance", "money", "company",
  "group", "team", "studio", "design", "marketing", "software", "tools", "health",
  "healthcare", "legal", "law", "news", "blog", "space", "zone", "link", "click", "today",
  "one", "pro", "expert", "careers", "jobs"]
/-- `ROLE_JOB_KEYWORDS` from the source. -/
def ROLE_JOB_KEYWORDS : List String := [
  "manager", "director", "engineer", "developer", "analyst", "consultant", "specialist",
  "coordinator", "assistant", "executive", "officer", "lead", "head", "chief", "president",
  "vp", "vice", "senior", "junior", "associate", "partner", "founder", "owner", "ceo", "cto",
  "cfo", "coo", "cmo", "cio", "sales", "marketing", "operations", "admin", "supervisor",
  "representative", "architect", "designer", "writer", "editor", "producer", "teacher",
  "professor", "coach", "trainer", "nurse", "doctor", "attorney", "lawyer", "accountant",
  "advisor", "adviser", "strategist", "planner", "recruiter", "broker"]
/-- `BLOCKED_EMAIL_PREFIXES` from the source. -/
def BLOCKED_EMAIL_PREFIXES : List String := [
  "info@", "hello@", "owner@", "ceo@", "founder@", "contact@", "support@", "team@", "admin@",
  "office@", "mail@", "connect@", "help@", "hi@", "welcome@", "inquiries@", "general@",
  "feedback@", "ask@", "outreach@", "communications@", "crew@", "staff@", "community@",
  "reachus@", "talk@", "service@"]
/-- `VALID_EMPLOYEE_COUNTS` from the source. -/
def VALID_EMPLOYEE_COUNTS : List String := [
  "0-1", "2-10", "11-50", "51-200", "201-500", "501-1,000", "1,001-5,000", "5,001-10,000",
  "10,001+"]
/-- `REQUIRED_FIELDS` from the source. -/
def REQUIRED_FIELDS : List String := [
  "business", "full_name", "first", "last", "email", "role", "website", "industry",
  "sub_industry", "country", "city", "linkedin", "company_linkedin", "source_url",
  "description", "employee_count"]
/-- `VALID_SOURCE_TYPES` from the source. -/
def VALID_SOURCE_TYPES : List String := [
  "public_registry", "company_site", "first_party_form", "licensed_resale",
  "proprietary_database"]
/-- `RESTRICTED_SOURCES` from the source. -/
def RESTRICTED_SOURCES : List String := [
  "zoominfo.com", "apollo.io", "people-data-labs.com", "peopledatalabs.com", "rocketreach.co",
  "hunter.io", "snov.io", "lusha.com", "clearbit.com", "leadiq.com", "seamless.ai",
  "cognism.com", "uplead.com", "lead411.com"]
/-- `ATTESTATION_FIELDS` from the source. -/
def ATTESTATION_FIELDS : List String := [
  "wallet_ss58", "terms_version_hash", "lawful_collection", "no_restricted_sources",
  "license_granted"]
/-- `ROLE_GEOGRAPHIC_ENDINGS` from the source. -/
def ROLE_GEOGRAPHIC_ENDINGS : List String := [
  "-vietnam", "-cambodia", "-apac", "-emea", "-latam", "-amer", "-asia", "-europe", "-africa",
  "-india", "-china", "-japan", "- vietnam", "- cambodia", "- apac", "- emea", "- latam"]
/-- `ROLE_CSUITE_TITLES` from the source. -/
def ROLE_CSUITE_TITLES : List String := [
  "ceo", "cfo", "cto", "coo", "cmo", "cio", "cso", "cro", "cco", "cpo"]
/-- `LOCATION_GARBAGE_PATTERNS` from the source. -/
def LOCATION_GARBAGE_PATTERNS : List String := [
  "software", "technology", "solutions", "services", "consulting", "marketing", "sales",
  "engineering", "development", "management", "http://", "https://", "www.", ".com", ".org",
  ".io", "department", "division", "team", "group", "unit", "street", "avenue", "boulevard",
  "road", "suite", "floor", "n/a", "none", "null", "undefined", "test", "asdf"]
/-- `US_COUNTRY_ALIASES` from the source. -/
def US_COUNTRY_ALIASES : List String := [
  "united states", "usa", "us", "america", "u.s.", "u.s.a."]
/-- `FREE_EMAIL_DOMAINS` from the source (a Python set; membership only). -/
def FREE_EMAIL_DOMAINS : List String := [
  "gmail.com", "googlemail.com", "yahoo.com", "yahoo.co.uk", "yahoo.fr", "outlook.com",
  "hotmail.com", "live.com", "msn.com", "aol.com", "mail.com", "protonmail.com", "proton.me",
  "icloud.com", "me.com", "mac.com", "zoho.com", "yandex.com", "gmx.com", "mail.ru"]
/-- `MAJOR_HUBS_BY_COUNTRY` from the source (sets; membership only). -/
def MAJOR_HUBS_BY_COUNTRY : List (String × List String) := [
  ("united states", ["new york city", "manhattan", "brooklyn", "san francisco", "los angeles", "san diego", "san jose", "seattle", "portland", "austin", "dallas", "houston", "chicago", "boston", "denver", "miami", "washington", "atlanta", "phoenix"]),
  ("canada", ["toronto", "vancouver", "montréal", "montreal"]),
  ("united kingdom", ["london", "manchester", "edinburgh", "cambridge", "oxford"]),
  ("germany", ["berlin", "münchen", "munich", "frankfurt am main", "frankfurt", "hamburg"]),
  ("france", ["paris"]),
  ("netherlands", ["amsterdam", "rotterdam"]),
  ("switzerland", ["zürich", "zurich", "genève", "geneva"]),
  ("ireland", ["dublin"]),
  ("sweden", ["stockholm"]),
  ("spain", ["barcelona", "madrid"]),
  ("hong kong", ["hong kong"]),
  ("singapore", ["singapore"]),
  ("japan", ["tokyo", "osaka"]),
  ("south korea", ["seoul"]),
  ("china", ["shanghai", "beijing", "shenzhen"]),
  ("india", ["bengaluru", "bangalore", "mumbai", "new delhi", "hyderabad", "pune"]),
  ("australia", ["sydney", "melbourne"]),
  ("new zealand", ["auckland"]),
  ("israel", ["tel aviv"]),
  ("united arab emirates", ["dubai", "abu dhabi"]),
  ("brazil", ["são paulo", "sao paulo"])]

/-- Fallback `DISPOSABLE_DOMAINS` (the source falls back to this set when the
`disposable_email_domains` package is not installed; the external package is
outside the repository, so the fallback list is the modelled behaviour). -/
def DISPOSABLE_DOMAINS : List String := [
  "tempmail.com", "temp-mail.org", "guerrillamail.com", "mailinator.com",
  "throwaway.email", "10minutemail.com", "fakeinbox.com", "trashmail.com",
  "maildrop.cc", "getnada.com", "yopmail.com", "sharklasers.com",
  "dispostable.com", "mailnesia.com", "tempail.com", "tempr.email"]

/-- `LOCATION_MAX_LENGTH` from the source. -/
def LOCATION_MAX_LENGTH : Nat := 50

/-- One ICP (ideal customer profile) definition. -/
structure IcpDef where
  name : String
  sub_industries : List String
  roles : List String
  regions : Option (List String)
deriving Repr

/-- `ICP_DEFINITIONS` from the source; `regions` is `Option` because only
some entries carry a `"regions"` key. `US_COUNTRY_ALIASES` is inlined in
the last two entries exactly as in the source. -/
def ICP_DEFINITIONS : List IcpDef := [
  ⟨"Fuel/Energy Operations",
   ["fuel", "oil and gas", "fossil fuels", "energy"],
   ["coo", "chief operating officer", "director of operations", "vp of operations", "cto", "chief technology officer", "vp of engineering", "cio", "chief information officer"],
   Option.none⟩,
  ⟨"Agriculture/Farming",
   ["agriculture", "farming", "agtech", "livestock", "aquaculture"],
   ["coo", "chief operating officer", "vp of operations", "cto", "chief technology officer", "vp of engineering", "cio", "chief information officer"],
   Option.none⟩,
  ⟨"Renewable Energy",
   ["solar", "wind energy", "renewable energy", "clean energy", "biomass energy", "energy storage", "energy efficiency"],
   ["coo", "vp of operations", "cto", "vp of engineering", "cio", "asset manager", "site manager", "plant manager", "facility manager"],
   Option.none⟩,
  ⟨"Winery/Horticulture",
   ["winery", "wine and spirits", "horticulture", "farming", "agriculture", "hydroponics"],
   ["coo", "vp of operations", "cto", "vp of engineering", "cio", "farm manager", "vineyard manager", "head grower", "production manager"],
   Option.none⟩,
  ⟨"E-Commerce/Retail Marketing",
   ["e-commerce", "e-commerce platforms", "retail", "retail technology"],
   ["vp ecommerce", "vp e-commerce", "director of ecommerce", "head of growth", "vp of growth", "chief growth officer", "cmo", "chief marketing officer", "vp of marketing", "founder", "co-founder", "ceo"],
   Option.none⟩,
  ⟨"Digital Marketing/Advertising",
   ["digital marketing", "email marketing", "marketing", "marketing automation", "advertising", "advertising platforms", "affiliate marketing", "content marketing"],
   ["founder", "co-founder", "ceo", "director of partnerships", "vp of partnerships", "head of strategy", "chief strategy officer", "cmo", "managing director", "president"],
   Option.none⟩,
  ⟨"AI/ML Technical",
   ["artificial intelligence", "machine learning", "natural language processing", "predictive analytics"],
   ["ceo", "founder", "co-founder", "cto", "vp of engineering", "head of engineering", "vp of ai", "head of ai", "director of ai", "vp of machine learning", "chief ai officer", "chief data officer", "software engineer"],
   Option.none⟩,
  ⟨"Real Estate Investment",
   ["real estate", "real estate investment", "residential", "commercial real estate", "property development", "property management"],
   ["ceo", "owner", "co-owner", "sole operator", "founder", "co-founder", "managing partner", "managing director", "principal", "president", "partner"],
   Option.none⟩,
  ⟨"Wealth Management/Family Office",
   ["asset management", "venture capital", "hedge funds", "financial services", "impact investing"],
   ["ceo", "president", "managing director", "managing partner", "principal", "partner", "founder", "cio", "chief investment officer", "portfolio manager", "wealth manager", "coo", "cfo", "family office manager"],
   Option.none⟩,
  ⟨"FinTech/Banking Risk & Compliance",
   ["fintech", "banking", "payments", "financial services", "credit cards", "mobile payments", "transaction processing"],
   ["cro", "chief risk officer", "vp of risk", "head of risk", "director of risk", "cco", "chief compliance officer", "vp of compliance", "head of compliance", "compliance officer", "bsa officer", "aml officer", "kyc manager"],
   Option.none⟩,
  ⟨"Clinical Research/Labs",
   ["clinical trials", "biotechnology", "pharmaceutical", "biopharma", "life science"],
   ["data scientist", "data manager", "clinical data manager", "biostatistician", "ceo", "cto", "coo", "cso", "chief scientific officer", "vp of operations"],
   Option.none⟩,
  ⟨"Research/Academic",
   ["higher education", "life science", "biotechnology", "neuroscience", "genetics"],
   ["principal investigator", "lead researcher", "senior researcher", "research director", "professor", "associate professor", "assistant professor", "research scientist", "lab director", "department head"],
   Option.none⟩,
  ⟨"Biotech/Pharma",
   ["biotechnology", "biopharma", "pharmaceutical", "genetics", "life science", "bioinformatics"],
   ["ceo", "founder", "cto", "cso", "chief scientific officer", "coo", "cmo", "vp of business development", "head of business development", "vp of partnerships"],
   Option.none⟩,
  ⟨"Broadcasting/Media (Africa)",
   ["broadcasting", "video", "digital media", "content", "content delivery network", "telecommunications", "digital entertainment"],
   ["cto", "cfo", "head of engineering", "vp of engineering", "head of video", "head of streaming", "head of ott", "director of ott", "head of product", "chief product officer"],
   some ["africa", "nigeria", "south africa", "kenya", "ghana", "egypt", "morocco", "ethiopia", "tanzania", "uganda", "algeria", "sudan", "angola", "cameroon"]⟩,
  ⟨"Hospitality/Hotels (US)",
   ["hospitality", "hotel", "resorts", "travel accommodations", "vacation rental", "tourism"],
   ["business development", "vp of business development", "owner", "co-owner", "founder", "ceo", "president", "general manager", "gm", "operations manager", "director of operations", "hotel manager"],
   some ["united states", "usa", "us", "america", "u.s.", "u.s.a."]⟩,
  ⟨"Small/Local Businesses (US)",
   ["local business", "local", "retail", "restaurants", "food and beverage", "professional services", "home services", "real estate", "construction", "automotive", "health care", "fitness", "beauty", "consulting"],
   ["owner", "co-owner", "business owner", "sole proprietor", "sole operator", "franchise owner", "franchisee", "store owner", "founder", "ceo", "principal", "partner"],
   some ["united states", "usa", "us", "america", "u.s.", "u.s.a."]⟩]

/-- ASCII uppercase letter (`[A-Z]`). -/
def isAsciiUpper (c : Char) : Bool := 'A' ≤ c && c ≤ 'Z'

/-- A character of the local part of the email regex
`[a-zA-Z0-9._%+-]`. -/
def isEmailLocalChar (c : Char) : Bool :=
  c.isAlphanum || c == '.' || c == '_' || c == '%' || c == '+' || c == '-'

/-- A character of the domain part of the email regex `[a-zA-Z0-9.-]`. -/
def isEmailDomainChar (c : Char) : Bool := c.isAlphanum || c == '.' || c == '-'

/-- `\.[a-zA-Z]{2,}` starts here. -/
def dotAlpha2 : List Char → Bool
  | '.' :: a :: b :: _ => a.isAlpha && b.isAlpha
  | _ => false

/-- After an `@`: `[a-zA-Z0-9.-]+\.[a-zA-Z]{2,}` starts here (with the
backtracking of the regex engine: any nonempty domain run followed by a dot
and two letters succeeds). -/
def domainRun : List Char → Bool
  | [] => false
  | c :: rest => isEmailDomainChar c && (dotAlpha2 rest || domainRun rest)

/-- `re.search(r'[a-zA-Z0-9._%+-]+@[a-zA-Z0-9.-]+\.[a-zA-Z]{2,}', s)`
succeeds: somewhere a local character is directly followed by `@` and a
valid domain tail. -/
def hasEmailPattern : List Char → Bool
  | [] => false
  | [_] => false
  | x :: y :: rest =>
    (isEmailLocalChar x && y == '@' && domainRun rest) || hasEmailPattern (y :: rest)

/-- Character class of the phone regex `[\d\s\-\(\)]`. -/
def isPhoneChar (c : Char) : Bool :=
  c.isDigit || isPyWs c || c == '-' || c == '(' || c == ')'

/-- `re.search(r'\+?[\d\s\-\(\)]{10,}', s)` succeeds iff the string has a
run of at least 10 phone-class characters (`k` counts the current run). -/
def phoneRunAux (k : Nat) : List Char → Bool
  | [] => 10 ≤ k
  | c :: rest =>
    if 10 ≤ k then true
    else if isPhoneChar c then phoneRunAux (k + 1) rest
    else phoneRunAux 0 rest

/-- Phone-number detection of role check 10. -/
def hasPhoneRun (l : List Char) : Bool := phoneRunAux 0 l

/-- `l` starts with `k` copies of `c`. -/
def startsRun (c : Char) : Nat → List Char → Bool
  | 0, _ => true
  | _ + 1, [] => false
  | k + 1, x :: rest => x == c && startsRun c k rest

/-- `re.search(r'(.)\1{k-1,}', s)`: some character occurs `k` times in a
row. -/
def hasRunOf (k : Nat) : List Char → Bool
  | [] => false
  | c :: rest => startsRun c (k - 1) rest || hasRunOf k rest

/-- Non-Latin ranges of role check 11 (CJK, kana, Hangul, Arabic, Thai,
Cyrillic, Hebrew). -/
def isNonLatinChar (c : Char) : Bool :=
  (0x4e00 ≤ c.toNat && c.toNat ≤ 0x9fff) || (0x3040 ≤ c.toNat && c.toNat ≤ 0x309f) ||
  (0x30a0 ≤ c.toNat && c.toNat ≤ 0x30ff) || (0xac00 ≤ c.toNat && c.toNat ≤ 0xd7af) ||
  (0x0600 ≤ c.toNat && c.toNat ≤ 0x06ff) || (0x0e00 ≤ c.toNat && c.toNat ≤ 0x0e7f) ||
  (0x0400 ≤ c.toNat && c.toNat ≤ 0x04ff) || (0x0590 ≤ c.toNat && c.toNat ≤ 0x05ff)

/-- Emoji ranges of role check 19. -/
def isEmojiChar (c : Char) : Bool :=
  (0x1F600 ≤ c.toNat && c.toNat ≤ 0x1F64F) || (0x1F300 ≤ c.toNat && c.toNat ≤ 0x1F5FF) ||
  (0x1F680 ≤ c.toNat && c.toNat ≤ 0x1F6FF) || (0x1F900 ≤ c.toNat && c.toNat ≤ 0x1F9FF) ||
  (0x1F1E0 ≤ c.toNat && c.toNat ≤ 0x1F1FF) ||
  c.toNat == 0x2705 || c.toNat == 0x274C || c.toNat == 0x2714

/-- The special characters of role check 15 (`role[0] in '!@#$...'`). -/
def ROLE_SPECIAL_CHARS : List Char :=
  "!@#$%^&*()_+-=[]\x7b\x7d|;:\x27\",.<>?/\\\x60~".data

/-- `re.search(r'^\d+[xX]\s', s)`: digits, then `x`/`X`, then a whitespace
character, anchored at the start. -/
def startsNumX (l : List Char) : Bool :=
  match l with
  | c :: _ =>
    c.isDigit &&
      (match l.dropWhile Char.isDigit with
       | x :: w :: _ => (x == 'x' || x == 'X') && isPyWs w
       | _ => false)
  | [] => false

/-- `re.search(r'\$\d+[MmKkBb]?\+?', s)` succeeds iff a `$` is directly
followed by a digit. -/
def hasDollarAmount : List Char → Bool
  | [] => false
  | [_] => false
  | a :: b :: rest => (a == '$' && b.isDigit) || hasDollarAmount (b :: rest)

/-- `re.search(r'\bof\s*$', role_lower)`: the string ends with the whole
word `of` followed only by whitespace. -/
def endsIncompleteOf (l : List Char) : Bool :=
  match l.reverse.dropWhile isPyWs with
  | 'f' :: 'o' :: rest =>
    match rest with
    | [] => true
    | c :: _ => !isWordChar c
  | _ => false

/-- `\s+[A-Z]` starts here (one or more whitespace, then an uppercase
letter). -/
def wsThenUpper : List Char → Bool
  | [] => false
  | w :: rest =>
    isPyWs w &&
      (match rest.dropWhile isPyWs with
       | c :: _ => isAsciiUpper c
       | [] => false)

/-- `re.search(r'\s(?:at|@)\s+[A-Z]', role)` succeeds. -/
def hasAtCompany : List Char → Bool
  | [] => false
  | w :: rest =>
    (isPyWs w &&
      (match rest with
       | 'a' :: 't' :: rest2 => wsThenUpper rest2
       | '@' :: rest2 => wsThenUpper rest2
       | _ => false)) || hasAtCompany rest

/-- Word boundary after a token that ends in `.`: since `.` is not a word
character, `\b` holds only if the next character is a word character. -/
def boundaryAfterDot : List Char → Bool
  | [] => false
  | c :: _ => isWordChar c

/-- Word boundary after a token that ends in a word character: the next
character must not be a word character (or the string ends). -/
def boundaryAfterWord : List Char → Bool
  | [] => true
  | c :: _ => !isWordChar c

/-- One of `inc.`, `llc`, `ltd.`, `corp.` starts here with a valid right
boundary. -/
def matchCompanyTok (l : List Char) : Bool :=
  (match l with
   | 'i' :: 'n' :: 'c' :: '.' :: rest => boundaryAfterDot rest
   | _ => false) ||
  (match l with
   | 'l' :: 'l' :: 'c' :: rest => boundaryAfterWord rest
   | _ => false) ||
  (match l with
   | 'l' :: 't' :: 'd' :: '.' :: rest => boundaryAfterDot rest
   | _ => false) ||
  (match l with
   | 'c' :: 'o' :: 'r' :: 'p' :: '.' :: rest => boundaryAfterDot rest
   | _ => false)

/-- `re.search(r'\b(?:inc\.|llc|ltd\.|corp\.)\b', role_lower)`:
`prevWord` records whether the previous character was a word character
(the tokens all start with a word character, so `\b` before them means the
previous character is not one). -/
def hasCompanySuffixAux (prevWord : Bool) : List Char → Bool
  | [] => false
  | c :: rest =>
    (!prevWord && matchCompanyTok (c :: rest)) || hasCompanySuffixAux (isWordChar c) rest

/-- Company-suffix detection of role check 18. -/
def hasCompanySuffix (l : List Char) : Bool := hasCompanySuffixAux false l

/-- `re.search(r'\.\s*[A-Z]', role)`: a period, optional whitespace, then
an uppercase letter. -/
def hasDotCapital : List Char → Bool
  | [] => false
  | '.' :: rest =>
    (match rest.dropWhile isPyWs with
     | c :: _ => isAsciiUpper c
     | [] => false) || hasDotCapital rest
  | _ :: rest => hasDotCapital rest

/-- The alternatives of the bio-description regex of role check 21. -/
def BIO_STARTS : List String :=
  ["i am", "i\x27m", "we are", "we\x27re", "helping", "passionate",
   "dedicated", "committed", "driven"]

/-- `re.search(r'^(?:i am|...|driven)\s', role_lower)`: one of the
alternatives at the start, followed by one whitespace character. -/
def startsBio (rl : String) : Bool :=
  BIO_STARTS.any (fun p =>
    p.data.isPrefixOf rl.data &&
      (match rl.data.drop p.data.length with
       | c :: _ => isPyWs c
       | [] => false))

/-- The error string emitted by the typo check for misspelling `t` of
canonical word `c`. -/
def typoCode (t c : String) : String := "role_typo:" ++ t ++ "->" ++ c

/-- Role check 13: for each canonical word, the first listed misspelling
that occurs as a whole word is reported (the `break` stops the inner
loop). `ws` is the set of whole words of the lowercased role. -/
def typoErrors (ws : List String) : List String :=
  ROLE_TYPOS.flatMap (fun p =>
    match p.2.find? (fun t => ws.contains t) with
    | some t => [typoCode t p.1]
    | none => [])

/-- `sum(c.lower() in 'aeiou' for c in s)`. -/
def vowelCount (s : String) : Nat :=
  (s.data.filter (fun c =>
    lowerChar c == 'a' || lowerChar c == 'e' || lowerChar c == 'i' ||
    lowerChar c == 'o' || lowerChar c == 'u')).length

/-- Role checks 1-12 (everything before the typo check), on the stripped
role `r`. -/
def roleErrsA (r : String) : List String :=
  let rl := lowerStr r
  let digits := (r.data.filter Char.isDigit).length
  (if r.data.length < 2 then ["role_too_short"] else []) ++
  (if r.data.length > 80 then
    ["role_too_long:" ++ toString r.data.length ++ "/80"] else []) ++
  (if !r.data.any Char.isAlpha then ["role_no_letters"] else []) ++
  (if r.data.length > 0 && digits * 2 > r.data.length then
    ["role_mostly_numbers"] else []) ++
  (if ROLE_PLACEHOLDERS.contains rl then ["role_placeholder"] else []) ++
  (if hasRunOf 4 r.data then ["role_repeated_chars"] else []) ++
  (if (pyWords rl).any (fun w => 3 ≤ (pyWords rl).count w) then
    ["role_repeated_words"] else []) ++
  (match ROLE_SCAM_PATTERNS.find? (fun p => containsSub rl p) with
   | some p => ["role_scam_pattern:" ++ p]
   | none => []) ++
  (if containsSub r "http://" || containsSub r "https://" || containsSub r "www." then
    ["role_contains_url"] else []) ++
  (if hasEmailPattern r.data then ["role_contains_email"] else []) ++
  (if hasPhoneRun r.data then ["role_contains_phone"] else []) ++
  (if r.data.any isNonLatinChar then ["role_non_english"] else []) ++
  (if ROLE_URL_TLDS.any (fun t => containsSub rl ("." ++ t)) then
    ["role_contains_website"] else [])

/-- Role checks 14-28 (everything after the typo check), on the stripped
role `r`. -/
def roleErrsB (r : String) : List String :=
  let rl := lowerStr r
  let letters := (r.data.filter Char.isAlpha).length
  (if letters < 3 then ["role_too_few_letters"] else []) ++
  (if (match r.data.head? with
       | some c => ROLE_SPECIAL_CHARS.contains c
       | none => false) then ["role_starts_special_char"] else []) ++
  (if startsNumX r.data || hasDollarAmount r.data then
    ["role_achievement_statement"] else []) ++
  (if endsIncompleteOf rl.data then ["role_incomplete_title"] else []) ++
  (if hasAtCompany r.data || hasCompanySuffix rl.data then
    ["role_contains_company"] else []) ++
  (if r.data.any isEmojiChar then ["role_contains_emoji"] else []) ++
  (if containsSub rl "**hiring**" || containsSub rl "we\x27re hiring" ||
      containsSub rl "now hiring" then ["role_hiring_marker"] else []) ++
  (if startsBio rl then ["role_bio_description"] else []) ++
  (if r.data.length > 60 && !ROLE_JOB_KEYWORDS.any (fun kw => containsSub rl kw) then
    ["role_no_job_keywords"] else []) ++
  (if letters > 5 && vowelCount r * 10 < letters then ["role_gibberish"] else []) ++
  (match ROLE_GEOGRAPHIC_ENDINGS.find? (fun e => endsWithStr rl e) with
   | some e => ["role_geographic_ending:" ++ e]
   | none => []) ++
  (if hasDotCapital r.data then ["role_marketing_sentence"] else []) ++
  (let found := ROLE_CSUITE_TITLES.filter (fun t => containsSub rl t)
   if found.length > 1 then
     ["role_multiple_csuite:" ++ String.intercalate "," found] else []) ++
  (if r.data.contains ',' &&
      3 ≤ ((splitList ',' r.data).filter (fun p =>
        ROLE_JOB_KEYWORDS.any (fun kw => containsSub (lowerStr ⟨stripList p⟩) kw))).length
   then ["role_comma_stuffing"] else []) ++
  (if r.data.contains '|' then
     let parts := (splitList '|' r.data).map (fun p => lowerStr ⟨stripList p⟩)
     if 2 ≤ parts.length &&
        (parts.filter (fun p => !p.isEmpty)).all (fun p =>
          ROLE_JOB_KEYWORDS.any (fun kw => containsSub p kw))
     then ["role_pipe_stuffing"] else []
   else [])

/-- All 28 role checks on the stripped role, in source order. -/
def roleChecks (r : String) : List String :=
  roleErrsA r ++ typoErrors (wordsOf (lowerStr r)) ++ roleErrsB r

/-- `validate_role` from the source: an empty (falsy) role short-circuits
to `["role_empty"]`; otherwise the stripped role runs through all
checks. -/
def validate_role (role : PyVal) : List String :=
  if !pyTruthy role then ["role_empty"]
  else roleChecks (pyStrip (pyStr role))

/-- `re.sub(r'^https?://', '', url)`: remove one leading scheme. -/
def dropScheme (l : List Char) : List Char :=
  if "https://".data.isPrefixOf l then l.drop 8
  else if "http://".data.isPrefixOf l then l.drop 7
  else l

/-- `re.sub(r'^www\.', '', url)`: remove one leading `www.`. -/
def dropWww (l : List Char) : List Char :=
  if "www.".data.isPrefixOf l then l.drop 4 else l

/-- `url.split(c)[0]`: everything before the first occurrence of `c`. -/
def takeUntil (c : Char) (l : List Char) : List Char :=
  l.takeWhile (fun x => x != c)

/-- `re.sub(r'/+', '/', url)`: collapse each run of slashes to one. -/
def collapseSlashes (l : List Char) : List Char :=
  l.foldr (fun c acc => if c == '/' && acc.head? == some '/' then acc else c :: acc) []

/-- `url.rstrip('/')`. -/
def rstripSlashes (l : List Char) : List Char :=
  (l.reverse.dropWhile (fun c => c == '/')).reverse

/-- `re.search(pat + r'([^/]+)', u)` for a literal pattern `pat`: the
leftmost position where `pat` occurs followed by at least one
non-slash character; returns the greedy capture. -/
def findCapture (pat : List Char) : List Char → Option (List Char)
  | [] => none
  | c :: rest =>
    if pat.isPrefixOf (c :: rest) then
      let g := ((c :: rest).drop pat.length).takeWhile (fun x => x != '/')
      if g.isEmpty then findCapture pat rest else some g
    else findCapture pat rest

/-- The `url` of `normalize_linkedin_url` after
`str(url).strip().lower()` and removal of one leading scheme and one
leading `www.`. -/
def schemeHostPart (url : String) : List Char :=
  dropWww (dropScheme (lowerStr (pyStrip url)).data)

/-- The `url` of `normalize_linkedin_url` after additionally dropping
query and fragment, collapsing slash runs and stripping trailing
slashes. -/
def cleanedPath (url : String) : List Char :=
  rstripSlashes (collapseSlashes (takeUntil '#' (takeUntil '?' (schemeHostPart url))))

/-- `normalize_linkedin_url` from the source. -/
def normalize_linkedin_url (url : String) (url_type : String := "profile") : String :=
  if url.isEmpty then ""
  else if !("linkedin.com".data.isPrefixOf (schemeHostPart url)) then ""
  else if url_type == "profile" then
    match findCapture "linkedin.com/in/".data (cleanedPath url) with
    | some g => "linkedin.com/in/" ++ (⟨g⟩ : String)
    | none => ""
  else if url_type == "company" then
    match findCapture "linkedin.com/company/".data (cleanedPath url) with
    | some g => "linkedin.com/company/" ++ (⟨g⟩ : String)
    | none => ""
  else ""

/-- 2^32 reduction for SHA-256 word arithmetic. -/
def m32 (n : Nat) : Nat := n % 4294967296

/-- 32-bit right rotation (input assumed < 2^32). -/
def rotr32 (n x : Nat) : Nat := m32 ((x >>> n) ||| (x <<< (32 - n)))

/-- The 64 SHA-256 round constants (FIPS 180-4), written in decimal. -/
def SHA_K : Array Nat := #[
  1116352408, 1899447441, 3049323471, 3921009573, 961987163,
  1508970993, 2453635748, 2870763221, 3624381080, 310598401,
  607225278, 1426881987, 1925078388, 2162078206, 2614888103,
  3248222580, 3835390401, 4022224774, 264347078, 604807628,
  770255983, 1249150122, 1555081692, 1996064986, 2554220882,
  2821834349, 2952996808, 3210313671, 3336571891, 3584528711,
  113926993, 338241895, 666307205, 773529912, 1294757372,
  1396182291, 1695183700, 1986661051, 2177026350, 2456956037,
  2730485921, 2820302411, 3259730800, 3345764771, 3516065817,
  3600352804, 4094571909, 275423344, 430227734, 506948616,
  659060556, 883997877, 958139571, 1322822218, 1537002063,
  1747873779, 1955562222, 2024104815, 2227730452, 2361852424,
  2428436474, 2756734187, 3204031479, 3329325298]

/-- The SHA-256 initial hash state (FIPS 180-4), written in decimal. -/
def SHA_H0 : List Nat :=
  [
  1779033703, 3144134277, 1013904242,
  2773480762, 1359893119, 2600822924,
  528734635, 1541459225]

/-- One SHA-256 compression round over a 16-word block. -/
def sha256Block (h : List Nat) (block : List Nat) : List Nat :=
  let w0 : Array Nat := block.toArray
  let w := (List.range 48).foldl (fun w i =>
    let t := i + 16
    let x15 := w[t - 15]!
    let x2 := w[t - 2]!
    let s0 := (rotr32 7 x15) ^^^ (rotr32 18 x15) ^^^ (x15 >>> 3)
    let s1 := (rotr32 17 x2) ^^^ (rotr32 19 x2) ^^^ (x2 >>> 10)
    w.push (m32 (w[t - 16]! + s0 + w[t - 7]! + s1))) w0
  let a0 := h[0]!
  let st := (List.range 64).foldl (fun st i =>
    match st with
    | (a, b, c, d, e, f, g, hh) =>
      let s1 := (rotr32 6 e) ^^^ (rotr32 11 e) ^^^ (rotr32 25 e)
      let ch := (e &&& f) ^^^ ((4294967295 - e) &&& g)
      let t1 := m32 (hh + s1 + ch + SHA_K[i]! + w[i]!)
      let s0 := (rotr32 2 a) ^^^ (rotr32 13 a) ^^^ (rotr32 22 a)
      let mj := (a &&& b) ^^^ (a &&& c) ^^^ (b &&& c)
      let t2 := m32 (s0 + mj)
      (m32 (t1 + t2), a, b, c, m32 (d + t1), e, f, g))
    (a0, h[1]!, h[2]!, h[3]!, h[4]!, h[5]!, h[6]!, h[7]!)
  match st with
  | (a, b, c, d, e, f, g, hh) =>
    [m32 (h[0]! + a), m32 (h[1]! + b), m32 (h[2]! + c), m32 (h[3]! + d),
     m32 (h[4]! + e), m32 (h[5]! + f), m32 (h[6]! + g), m32 (h[7]! + hh)]

/-- Big-endian 8-byte encoding of a length in bits. -/
def bytesBE8 (n : Nat) : List Nat :=
  (List.range 8).map (fun i => (n >>> ((7 - i) * 8)) % 256)

/-- SHA-256 padding of a byte string. -/
def sha256Pad (msg : List Nat) : List Nat :=
  msg ++ [0x80] ++ List.replicate ((119 - msg.length % 64) % 64) 0 ++ bytesBE8 (msg.length * 8)

/-- Big-endian 4-byte grouping of bytes into 32-bit words. -/
def bytesToWords : List Nat → List Nat
  | b0 :: b1 :: b2 :: b3 :: rest => (((b0 * 256 + b1) * 256 + b2) * 256 + b3) :: bytesToWords rest
  | _ => []

/-- Iterate the compression function over 16-word blocks (`fuel` bounds the
number of blocks). -/
def sha256Iter (fuel : Nat) (h : List Nat) (ws : List Nat) : List Nat :=
  match fuel with
  | 0 => h
  | f + 1 =>
    match ws with
    | [] => h
    | _ => sha256Iter f (sha256Block h (ws.take 16)) (ws.drop 16)

/-- Lowercase hex digit. -/
def hexDigit (n : Nat) : Char :=
  if n < 10 then Char.ofNat (48 + n) else Char.ofNat (87 + n)

/-- Two lowercase hex digits of a byte. -/
def byteHex (b : Nat) : List Char := [hexDigit (b / 16), hexDigit (b % 16)]

/-- The four big-endian bytes of a 32-bit word. -/
def wordBytes (w : Nat) : List Nat :=
  [(w >>> 24) % 256, (w >>> 16) % 256, (w >>> 8) % 256, w % 256]

/-- `hashlib.sha256(bytes).hexdigest()`. -/
def sha256Hex (msg : List Nat) : String :=
  let ws := bytesToWords (sha256Pad msg)
  ⟨((sha256Iter ws.length SHA_H0 ws).flatMap wordBytes).flatMap byteHex⟩

/-- `str.encode()` (UTF-8 bytes). -/
def utf8Bytes (s : String) : List Nat := s.toUTF8.data.toList.map (fun b => b.toNat)

/-- `compute_email_hash` from the source: SHA-256 of the lowercased,
stripped email. -/
def compute_email_hash (email : String) : String :=
  sha256Hex (utf8Bytes (pyStrip (lowerStr email)))

/-- `compute_linkedin_combo_hash` from the source. -/
def compute_linkedin_combo_hash (linkedin company_linkedin : String) : String :=
  let norm_profile := normalize_linkedin_url linkedin "profile"
  let norm_company := normalize_linkedin_url company_linkedin "company"
  if norm_profile.isEmpty || norm_company.isEmpty then ""
  else sha256Hex (utf8Bytes (norm_profile ++ "||" ++ norm_company))

/-- The dictionary returned by `DuplicateChecker.check`. -/
structure DupStatus where
  is_duplicate : Bool
  reason : String
  can_resubmit : Bool
  source : String
deriving DecidableEq, Repr

/-- The local duplicate cache (`~/.leadpoet/duplicate_cache.json`): hash to
cached consensus decision.  The stored timestamp is omitted because
`check` never reads it. -/
structure DupCache where
  email_hashes : List (String × String)
  linkedin_hashes : List (String × String)
deriving DecidableEq, Repr

/-- One row of the remote `transparency_log` table (the fields `check`
queries).  The supabase store is external to the repository; it is
modelled as a list of rows with `created_at` as a totally ordered
timestamp. -/
structure LogRecord where
  event_type : String
  email_hash : String
  linkedin_combo_hash : String
  final_decision : String
  created_at : Nat
deriving DecidableEq, Repr

/-- `order("created_at", desc=True).limit(1)` over a filtered table: the
row with the greatest timestamp (first-in-log on ties, which the database
leaves unspecified). -/
def latestBy (f : LogRecord → Bool) (log : List LogRecord) : Option LogRecord :=
  (log.filter f).foldl (fun acc r =>
    match acc with
    | some b => if b.created_at < r.created_at then some r else some b
    | none => some r) none

/-- Latest `CONSENSUS_RESULT` row for an email hash. -/
def consensusByEmail (log : List LogRecord) (h : String) : Option LogRecord :=
  latestBy (fun r => r.event_type == "CONSENSUS_RESULT" && r.email_hash == h) log

/-- Latest `CONSENSUS_RESULT` row for a linkedin combo hash. -/
def consensusByLinkedin (log : List LogRecord) (h : String) : Option LogRecord :=
  latestBy (fun r => r.event_type == "CONSENSUS_RESULT" && r.linkedin_combo_hash == h) log

/-- Whether any `SUBMISSION` row exists for an email hash. -/
def hasSubmission (log : List LogRecord) (h : String) : Bool :=
  log.any (fun r => r.event_type == "SUBMISSION" && r.email_hash == h)

/-- The fall-through of the online branch after both consensus queries
miss: a pending `SUBMISSION` row blocks, otherwise the lead is new. -/
def onlineTailResult (log : List LogRecord) (email_hash : String) : DupStatus :=
  if email_hash != "" && hasSubmission log email_hash then
    ⟨true, "email_pending_processing", false, "online"⟩
  else ⟨false, "new", true, "online"⟩

/-- The linkedin-hash lookup of the offline branch (reached only when the
email hash missed the cache). -/
def offlineLinkedinResult (cache : DupCache) (linkedin_hash : String) : DupStatus :=
  if linkedin_hash != "" then
    match cache.linkedin_hashes.lookup linkedin_hash with
    | some d =>
      if d == "approve" then ⟨true, "linkedin_combo_already_approved", false, "cache"⟩
      else ⟨false, "new", true, "cache"⟩
    | none => ⟨false, "new", true, "cache"⟩
  else ⟨false, "new", true, "cache"⟩

/-- `DuplicateChecker.check` after the two fingerprint hashes have been
computed.  The online branch is modelled with supabase credentials
present and every query succeeding against `log` (the source falls back
to the offline branch on import or query failure). -/
def checkWithHashes (mode : String) (cache : DupCache) (log : List LogRecord)
    (email_hash linkedin_hash : String) : DupStatus :=
  if mode == "online" then
    match (if email_hash != "" then consensusByEmail log email_hash else none) with
    | some r =>
      if r.final_decision == "approve" then
        ⟨true, "email_already_approved", false, "online"⟩
      else ⟨false, "email_was_denied_can_resubmit", true, "online"⟩
    | none =>
      match (if linkedin_hash != "" then consensusByLinkedin log linkedin_hash else none) with
      | some r =>
        if r.final_decision == "approve" then
          ⟨true, "linkedin_combo_already_approved", false, "online"⟩
        else onlineTailResult log email_hash
      | none => onlineTailResult log email_hash
  else if mode == "offline" then
    if email_hash != "" then
      match cache.email_hashes.lookup email_hash with
      | some d =>
        if d == "approve" then ⟨true, "email_already_approved", false, "cache"⟩
        else ⟨false, "email_was_denied_can_resubmit", true, "cache"⟩
      | none => offlineLinkedinResult cache linkedin_hash
    else offlineLinkedinResult cache linkedin_hash
  else ⟨false, "new", true, mode⟩

/-- `DuplicateChecker.check(email, linkedin, company_linkedin)`: compute
the two fingerprint hashes, then run the decision logic. -/
def DuplicateChecker_check (mode : String) (cache : DupCache) (log : List LogRecord)
    (email linkedin company_linkedin : String) : DupStatus :=
  checkWithHashes mode cache log
    (if email != "" then compute_email_hash email else "")
    (compute_linkedin_combo_hash linkedin company_linkedin)

/-- The lead record: a Python dict modelled as an association list
(first occurrence wins on lookup; Python dict keys are unique). -/
abbrev Lead := List (String × PyVal)

/-- `lead.get(k)`. -/
def leadGet (lead : Lead) (k : String) : Option PyVal := lead.lookup k

/-- `lead.get(k, d)`. -/
def leadGetD (lead : Lead) (k : String) (d : PyVal) : PyVal := (lead.lookup k).getD d

/-- `str(x).lower().strip() if x else ""`. -/
def strLowerStripIfTruthy (v : PyVal) : String :=
  if pyTruthy v then pyStrip (lowerStr (pyStr v)) else ""

/-- The `role_expansions` dict of `check_icp_match`, in source order. -/
def ROLE_EXPANSIONS : List (String × String) := [
  ("chief executive officer", "ceo"), ("chief technology officer", "cto"),
  ("chief operating officer", "coo"), ("chief financial officer", "cfo"),
  ("chief marketing officer", "cmo"), ("chief information officer", "cio"),
  ("chief scientific officer", "cso"), ("chief risk officer", "cro"),
  ("chief compliance officer", "cco"), ("chief product officer", "cpo"),
  ("chief ai officer", "caio"), ("chief data officer", "cdo"),
  ("vice president", "vp")]

/-- The dictionary returned by `check_icp_match`. -/
structure IcpMatch where
  /-- the `"matches"` key (`matches` is reserved in Lean) -/
  matched : Bool
  icp_name : Option String
  bonus : Int
deriving DecidableEq, Repr

/-- The per-ICP condition of `check_icp_match`.  Note that each matching
expansion rebuilds `role_expanded` from `role_lower`, so only the last
matching expansion survives, exactly as in the Python loop. -/
def icpMatches (sub_industry role country city : PyVal) (icp : IcpDef) : Bool :=
  let sub_lower := strLowerStripIfTruthy sub_industry
  let role_lower := strLowerStripIfTruthy role
  let country_lower := strLowerStripIfTruthy country
  let city_lower := strLowerStripIfTruthy city
  let role_expanded := ROLE_EXPANSIONS.foldl (fun acc p =>
    if containsSub role_lower p.1 then role_lower ++ " " ++ p.2 else acc) role_lower
  (icp.sub_industries.any (fun s =>
    sub_lower == s || containsSub s sub_lower || containsSub sub_lower s)) &&
  (icp.roles.any (fun r => containsSub role_lower r || containsSub role_expanded r)) &&
  (match icp.regions with
   | some rs => rs.any (fun r => containsSub country_lower r || containsSub city_lower r)
   | none => true)

/-- `check_icp_match` from the source: the first matching ICP wins. -/
def check_icp_match (sub_industry role country city : PyVal) : IcpMatch :=
  match ICP_DEFINITIONS.find? (icpMatches sub_industry role country city) with
  | some icp => ⟨true, some icp.name, 50⟩
  | none => ⟨false, none, 0⟩

/-- `is_major_hub` from the source. -/
def is_major_hub (city country : PyVal) : Bool :=
  let city_lower := strLowerStripIfTruthy city
  let country_lower := strLowerStripIfTruthy country
  MAJOR_HUBS_BY_COUNTRY.any (fun p =>
    (containsSub country_lower p.1 || containsSub p.1 country_lower) &&
    p.2.contains city_lower)

/-- `parse_employee_count` from the source. -/
def parse_employee_count (count_str : String) : Nat × Nat :=
  if count_str == "0-1" then (0, 1)
  else if count_str == "2-10" then (2, 10)
  else if count_str == "11-50" then (11, 50)
  else if count_str == "51-200" then (51, 200)
  else if count_str == "201-500" then (201, 500)
  else if count_str == "501-1,000" then (501, 1000)
  else if count_str == "1,001-5,000" then (1001, 5000)
  else if count_str == "5,001-10,000" then (5001, 10000)
  else if count_str == "10,001+" then (10001, 100000)
  else (0, 0)

/-- `calculate_size_adjustment` from the source.  A non-string or falsy
`employee_count` is never a member of `VALID_EMPLOYEE_COUNTS`, hence the
`no_employee_count` result. -/
def calculate_size_adjustment (employee_count city country : PyVal) : Int × String :=
  match employee_count with
  | .str s =>
    if s.isEmpty || !VALID_EMPLOYEE_COUNTS.contains s then (0, "no_employee_count")
    else
      let mm := parse_employee_count s
      let is_hub := is_major_hub city country
      if mm.2 ≤ 10 && is_hub then
        (50, "small_company_major_hub (<=10 employees in " ++ pyStr city ++ ")")
      else if mm.2 ≤ 50 then (20, "small_company (<=50 employees)")
      else if 5000 < mm.1 && mm.1 < 10001 then (-15, "large_company_penalty (5k-10k employees)")
      else if 1000 < mm.1 then (-10, "large_company_penalty (>1k employees)")
      else (0, "mid_size_company")
  | _ => (0, "no_employee_count")

/-- The dictionary returned by `preview_score`. -/
structure ScorePreview where
  icp_match : Bool
  icp_name : Option String
  icp_bonus : Int
  size_adjustment : Int
  size_reason : String
  estimated_adjustment : Int
  recommendations : List String
deriving DecidableEq, Repr

/-- `preview_score` from the source: positive bonuses are summed and
capped at 50, a negative size adjustment is added after the cap. -/
def preview_score (lead : Lead) : ScorePreview :=
  let icp := check_icp_match (leadGetD lead "sub_industry" (.str ""))
    (leadGetD lead "role" (.str "")) (leadGetD lead "country" (.str ""))
    (leadGetD lead "city" (.str ""))
  let sa := calculate_size_adjustment (leadGetD lead "employee_count" (.str ""))
    (leadGetD lead "city" (.str "")) (leadGetD lead "country" (.str ""))
  let size_adj := sa.1
  let total_bonus : Int := min 50 (icp.bonus + max 0 size_adj)
  let total_adjustment := if size_adj < 0 then total_bonus + size_adj else total_bonus
  let recommendations :=
    (if !icp.matched then ["Consider targeting ICP categories for +50 bonus"] else []) ++
    (if size_adj < 0 then
      ["Large companies receive penalties - consider smaller targets"] else []) ++
    (if size_adj == 0 && !icp.matched then
      ["Small companies (<=50 employees) receive +20 bonus"] else [])
  ⟨icp.matched, icp.icp_name, icp.bonus, size_adj, sa.2, total_adjustment, recommendations⟩

/-- `validate_required_fields` from the source. -/
def validate_required_fields (lead : Lead) : List String :=
  (REQUIRED_FIELDS.flatMap (fun f =>
    match leadGet lead f with
    | none => ["missing_field:" ++ f]
    | some v => if (pyStrip (pyStr v)).isEmpty then ["missing_field:" ++ f] else [])) ++
  (let country := lowerStr (pyStr (leadGetD lead "country" (.str "")))
   if US_COUNTRY_ALIASES.any (fun a => containsSub country a) then
     let st := leadGetD lead "state" PyVal.none
     if !pyTruthy st || (pyStrip (pyStr st)).isEmpty then
       ["missing_field:state (required for US leads)"]
     else []
   else [])

/-- ASCII hex digit. -/
def isHexChar (c : Char) : Bool :=
  c.isDigit || ('a' ≤ c && c ≤ 'f') || ('A' ≤ c && c ≤ 'F')

/-- `re.match(r'^[a-fA-F0-9]{64}$', s)`: 64 hex characters (Python's `$`
also accepts one trailing newline). -/
def match64Hex (l : List Char) : Bool :=
  (l.length == 64 && l.all isHexChar) ||
  (l.length == 65 && l.getLast? == some '\n' && (l.take 64).all isHexChar)

/-- `validate_source_provenance` from the source. -/
def validate_source_provenance (lead : Lead) : List String :=
  let source_url := pyStrip (pyStr (leadGetD lead "source_url" (.str "")))
  let source_type := pyStrip (pyStr (leadGetD lead "source_type" (.str "")))
  (if source_url.isEmpty then ["missing_field:source_url"]
   else
     match RESTRICTED_SOURCES.find? (fun rs => containsSub (lowerStr source_url) rs) with
     | some rs => ["restricted_source:" ++ rs]
     | none => []) ++
  (if source_type.isEmpty then ["missing_field:source_type"]
   else if !VALID_SOURCE_TYPES.contains source_type then
     ["source_type_invalid:" ++ source_type ++ " (valid: " ++
       String.intercalate ", " VALID_SOURCE_TYPES ++ ")"]
   else []) ++
  (if source_type == "licensed_resale" then
     let license_hash := pyStrip (pyStr (leadGetD lead "license_doc_hash" (.str "")))
     if license_hash.isEmpty then ["missing_license_doc_hash (required for licensed_resale)"]
     else if !match64Hex license_hash.data then
       ["license_doc_hash_invalid_format (must be 64 hex chars SHA-256)"]
     else []
   else [])

/-- `validate_attestation` from the source: two string-presence checks,
then the three boolean attestations, which must be the exact boolean
`True` (`value is not True` fires on `False`, absent and non-boolean
values alike). -/
def validate_attestation (lead : Lead) : List String :=
  (if (pyStrip (pyStr (leadGetD lead "wallet_ss58" (.str "")))).isEmpty then
    ["missing_field:wallet_ss58"] else []) ++
  (if (pyStrip (pyStr (leadGetD lead "terms_version_hash" (.str "")))).isEmpty then
    ["missing_field:terms_version_hash"] else []) ++
  (["lawful_collection", "no_restricted_sources", "license_granted"].flatMap (fun f =>
    if leadGet lead f == some (.bool true) then []
    else ["attestation_false_or_missing:" ++ f]))

/-- The per-field body of `validate_location` (skipped for falsy
values). -/
def locationFieldErrors (v : PyVal) (name : String) : List String :=
  if !pyTruthy v then []
  else
    let loc := pyStrip (pyStr v)
    let loc_lower := lowerStr loc
    let words := pyWords loc_lower
    (if loc.data.length > LOCATION_MAX_LENGTH then
      [name ++ "_too_long:" ++ toString loc.data.length ++ "/" ++ toString LOCATION_MAX_LENGTH]
     else []) ++
    (match LOCATION_GARBAGE_PATTERNS.find? (fun p => containsSub loc_lower p) with
     | some p => [name ++ "_garbage_pattern:" ++ p]
     | none => []) ++
    (if 2 ≤ words.length then
       match words.find? (fun w => 3 < w.data.length && 2 ≤ words.count w) with
       | some w => [name ++ "_duplicate_word:" ++ w]
       | none => []
     else []) ++
    (if startsWithStr loc_lower "the " || startsWithStr loc_lower "a " ||
        startsWithStr loc_lower "an " then [name ++ "_starts_with_article"] else [])

/-- `validate_location` from the source (Python iterates a `set` of words
for the duplicate-word check; the reported word is modelled as the first
qualifying word in occurrence order). -/
def validate_location (city country region : PyVal) : List String :=
  locationFieldErrors city "city" ++ locationFieldErrors country "country" ++
  locationFieldErrors region "region"

/-- `\s*` then the literal, used by the follower patterns. -/
def wsThenLit (lit : List Char) (l : List Char) : Bool :=
  lit.isPrefixOf (l.dropWhile isPyWs)

/-- `re.search(r'\d+\s*' + lit, s)`: some digit followed (after optional
whitespace) by the literal. -/
def digitThenLit (lit : List Char) : List Char → Bool
  | [] => false
  | c :: rest => (c.isDigit && wsThenLit lit rest) || digitThenLit lit rest

/-- `\s*(?:on\s*)?linkedin` starts here. -/
def followerTail2 (l : List Char) : Bool :=
  let r := l.dropWhile isPyWs
  "linkedin".data.isPrefixOf r ||
  ("on".data.isPrefixOf r && "linkedin".data.isPrefixOf ((r.drop 2).dropWhile isPyWs))

/-- `\s*followers?\s*(?:on\s*)?linkedin` starts here (both branches of
the optional `s` are tried, like the regex engine). -/
def followerTail (l : List Char) : Bool :=
  let r := l.dropWhile isPyWs
  if "follower".data.isPrefixOf r then
    let r2 := r.drop 8
    (match r2 with
     | 's' :: r3 => followerTail2 r3 || followerTail2 r2
     | _ => followerTail2 r2)
  else false

/-- `re.search(r'\d+\s*followers?\s*(?:on\s*)?linkedin', s)`. -/
def digitThenFollower : List Char → Bool
  | [] => false
  | c :: rest => (c.isDigit && followerTail rest) || digitThenFollower rest

/-- The three LinkedIn-follower patterns of description check 5. -/
def hasFollowerPattern (l : List Char) : Bool :=
  digitThenFollower l || digitThenLit "seguidores".data l ||
  digitThenLit "abonnés".data l

/-- Navigation/UI text fragments of description check 6. -/
def NAV_PATTERNS : List String :=
  ["report this company", "close menu", "skip to main", "cookie policy",
   "accept cookies", "privacy settings"]

/-- Placeholder fragments of description check 9. -/
def DESC_PLACEHOLDERS : List String :=
  ["lorem ipsum", "n/a", "placeholder", "test description", "tbd", "coming soon"]

/-- `re.match(r'^https?://\S+$', s)` on an already-stripped string: a
scheme followed only by non-whitespace characters. -/
def matchJustUrl (l : List Char) : Bool :=
  if "https://".data.isPrefixOf l then
    let r := l.drop 8
    !r.isEmpty && r.all (fun c => !isPyWs c)
  else if "http://".data.isPrefixOf l then
    let r := l.drop 7
    !r.isEmpty && r.all (fun c => !isPyWs c)
  else false

/-- Length of the leftmost match of the e-mail regex
`[a-zA-Z0-9._%+-]+@[a-zA-Z0-9.-]+\.[a-zA-Z]{2,}` in `l`, if any: the
local run before the first valid `@`, the `@`, the domain up to the last
dot followed by two letters, and the greedy letter run after it. -/
def emailMatchLen (l : List Char) : Option Nat :=
  let arr := l.toArray
  match (List.range l.length).find? (fun i =>
    arr[i]! == '@' && decide (0 < i) && isEmailLocalChar arr[i - 1]! &&
    domainRun (l.drop (i + 1))) with
  | some i =>
    let localLen := ((l.take i).reverse.takeWhile isEmailLocalChar).length
    let R := (l.drop (i + 1)).takeWhile isEmailDomainChar
    let Rarr := R.toArray
    match ((List.range R.length).filter (fun j =>
      decide (1 ≤ j) && Rarr[j]! == '.' && decide (j + 2 < R.length) &&
      (Rarr[j + 1]!).isAlpha && (Rarr[j + 2]!).isAlpha)).getLast? with
    | some j =>
      some (localLen + 1 + j + 1 + ((R.drop (j + 1)).takeWhile Char.isAlpha).length)
    | none => none
  | none => none

/-- `validate_description` from the source: `(errors, warnings)`. -/
def validate_description (description : PyVal) : List String × List String :=
  if !pyTruthy description then (["description_empty"], [])
  else
    let d := pyStrip (pyStr description)
    let dl := lowerStr d
    let letters := (d.data.filter Char.isAlpha).length
    let has_latin := d.data.any Char.isAlpha
    let warnings :=
      if d.data.length < 70 then
        ["desc_short:" ++ toString d.data.length ++ "/70 (quality warning)"] else []
    let errors :=
      (if d.data.length > 2000 then ["desc_too_long"] else []) ++
      (if !has_latin then ["desc_no_letters"] else []) ++
      (if letters < 50 then
        ["desc_too_few_letters:" ++ toString letters ++ "/50"] else []) ++
      (if endsWithStr (pyRstrip d) "..." then ["desc_truncated"] else []) ++
      (if hasFollowerPattern dl.data then ["desc_linkedin_followers"] else []) ++
      (if NAV_PATTERNS.any (fun p => containsSub dl p) then ["desc_navigation_text"] else []) ++
      (if d.data.any (fun c => 0x4e00 ≤ c.toNat && c.toNat ≤ 0x9fff) && has_latin &&
          d.data.length < 200 then ["desc_garbled_unicode"] else []) ++
      (if d.data.any (fun c => 0x0600 ≤ c.toNat && c.toNat ≤ 0x06ff) && has_latin &&
          d.data.length < 200 then ["desc_arabic_mixed"] else []) ++
      (if d.data.any (fun c => 0x0e00 ≤ c.toNat && c.toNat ≤ 0x0e7f) && has_latin &&
          d.data.length < 200 then ["desc_thai_mixed"] else []) ++
      (if letters > 30 && vowelCount d * 20 < letters * 3 then ["desc_gibberish"] else []) ++
      (if DESC_PLACEHOLDERS.any (fun p => containsSub dl p) then ["desc_placeholder"] else []) ++
      (if hasRunOf 5 d.data then ["desc_repeated_chars"] else []) ++
      (if matchJustUrl (pyStrip d).data then ["desc_just_url"] else []) ++
      (match emailMatchLen d.data with
       | some n => if n * 10 > d.data.length * 3 then ["desc_mostly_email"] else []
       | none => []) ++
      (if d.data.head? == some '|' then ["desc_formatting_junk"] else [])
    (errors, warnings)

/-- `[a-zA-Z0-9.-]+\.[a-zA-Z]{2,}` matches `r` exactly: all domain
characters, ending in a dot followed by at least two letters, with a
nonempty domain part before that dot. -/
def emailTailOk (domainChar : Char → Bool) (r : List Char) : Bool :=
  r.all domainChar &&
  (let a := r.reverse.takeWhile Char.isAlpha
   2 ≤ a.length &&
     (match r.reverse.drop a.length with
      | '.' :: d => !d.isEmpty
      | _ => false))

/-- Anchored e-mail pattern with parametric local/domain classes:
`^[local]+@[domain]+\.[a-zA-Z]{2,}` against the whole string. -/
def matchEmailCore (localChar domainChar : Char → Bool) (l : List Char) : Bool :=
  let loc := l.takeWhile (fun c => c != '@')
  !loc.isEmpty && loc.length < l.length && loc.all localChar &&
  emailTailOk domainChar (l.drop (loc.length + 1))

/-- Python's `$`: the pattern may stop at the end or just before one
final newline. -/
def dollarAnchored (core : List Char → Bool) (l : List Char) : Bool :=
  core l || (l.getLast? == some '\n' && core l.dropLast)

/-- Regex `\w` under `re.UNICODE`, approximated as ASCII word characters
plus all non-ASCII code points. -/
def isUniWordChar (c : Char) : Bool := c.isAlphanum || c == '_' || 0x80 ≤ c.toNat

/-- `[\w._%+-]` of the internationalized e-mail pattern. -/
def isUniLocalChar (c : Char) : Bool :=
  isUniWordChar c || c == '.' || c == '%' || c == '+' || c == '-'

/-- `[\w.-]` of the internationalized e-mail pattern. -/
def isUniDomainChar (c : Char) : Bool := isUniWordChar c || c == '.' || c == '-'

/-- `str.rstrip(ch)` for one character. -/
def rstripChar (ch : Char) (s : String) : String :=
  ⟨(s.data.reverse.dropWhile (fun c => c == ch)).reverse⟩

/-- `validate_email` from the source. -/
def validate_email (email first last : PyVal) : List String :=
  if !pyTruthy email then ["email_empty"]
  else
    let e := pyStrip (pyStr email)
    let el := lowerStr e
    let local_part := e.data.takeWhile (fun c => c != '@')
    let domain : String :=
      if el.data.contains '@' then
        ⟨((el.data.dropWhile (fun c => c != '@')).drop 1).takeWhile (fun c => c != '@')⟩
      else ""
    let first_lower := pyStrip (lowerStr (pyStr (if pyTruthy first then first else .str "")))
    let last_lower := pyStrip (lowerStr (pyStr (if pyTruthy last then last else .str "")))
    let local_lower := lowerStr ⟨local_part⟩
    let name_found :=
      (3 ≤ first_lower.length && containsSub local_lower first_lower) ||
      (3 ≤ last_lower.length && containsSub local_lower last_lower)
    (if !(dollarAnchored (matchEmailCore isEmailLocalChar isEmailDomainChar) e.data ||
          dollarAnchored (matchEmailCore isUniLocalChar isUniDomainChar) e.data) then
      ["email_invalid_format"] else []) ++
    (if local_part.contains '+' then ["email_plus_alias"] else []) ++
    (match BLOCKED_EMAIL_PREFIXES.find? (fun p => startsWithStr el p) with
     | some p => ["email_blocked_prefix:" ++ rstripChar '@' p]
     | none => []) ++
    (if FREE_EMAIL_DOMAINS.contains domain then ["email_free_domain:" ++ domain] else []) ++
    (if DISPOSABLE_DOMAINS.contains domain then ["email_disposable:" ++ domain] else []) ++
    (if !name_found && 3 ≤ first_lower.length && 3 ≤ last_lower.length then
      ["email_no_name_match"] else [])

/-- `validate_employee_count` from the source. -/
def validate_employee_count (count : PyVal) : List String :=
  if !pyTruthy count then ["employee_count_empty"]
  else
    let c := pyStrip (pyStr count)
    if !VALID_EMPLOYEE_COUNTS.contains c then
      ["employee_count_invalid:" ++ c ++ " (valid: " ++
        String.intercalate ", " VALID_EMPLOYEE_COUNTS ++ ")"]
    else []

/-- `validate_industry_pair` from the source.  The taxonomy is loaded
from `validator_models/industry_taxonomy.py`, a file outside this
repository's sources, so it enters as data; an empty taxonomy reproduces
the load-failure branch. -/
def validate_industry_pair (taxonomy : List (String × List String))
    (industry sub_industry : PyVal) : List String :=
  if taxonomy.isEmpty then ["taxonomy_not_loaded"]
  else
    let sub_lower := strLowerStripIfTruthy sub_industry
    let ind_lower := strLowerStripIfTruthy industry
    if sub_lower.isEmpty then ["sub_industry_empty"]
    else
      match taxonomy.lookup sub_lower with
      | none => ["sub_industry_invalid:" ++ pyStr sub_industry]
      | some valid =>
        if ind_lower.isEmpty then ["industry_empty"]
        else if !valid.contains ind_lower then
          ["industry_mismatch:" ++ pyStr industry ++ " not valid for " ++
            pyStr sub_industry ++ " (valid: " ++ String.intercalate ", " valid ++ ")"]
        else []

/-- `normalize_linkedin_url` applied to a raw dictionary value (the
source feeds `lead.get(...)` straight into the validator; falsy values
short-circuit to `""` and remaining values behave as their `str`). -/
def normalizeVal (v : PyVal) (t : String) : String :=
  if !pyTruthy v then "" else normalize_linkedin_url (pyStr v) t

/-- `validate_linkedin_urls` from the source. -/
def validate_linkedin_urls (linkedin company_linkedin : PyVal) : List String :=
  (if (normalizeVal linkedin "profile").isEmpty then
    ["linkedin_invalid_format:" ++ pyStr linkedin] else []) ++
  (if (normalizeVal company_linkedin "company").isEmpty then
    ["company_linkedin_invalid_format:" ++ pyStr company_linkedin] else [])

/-- `compute_linkedin_combo_hash` applied to raw dictionary values. -/
def comboHashVal (linkedin company_linkedin : PyVal) : String :=
  let norm_profile := normalizeVal linkedin "profile"
  let norm_company := normalizeVal company_linkedin "company"
  if norm_profile.isEmpty || norm_company.isEmpty then ""
  else sha256Hex (utf8Bytes (norm_profile ++ "||" ++ norm_company))

/-- `DuplicateChecker.check` applied to raw dictionary values, as
`audit_lead` calls it. -/
def DuplicateChecker_checkVal (mode : String) (cache : DupCache) (log : List LogRecord)
    (email linkedin company_linkedin : PyVal) : DupStatus :=
  checkWithHashes mode cache log
    (if pyTruthy email then compute_email_hash (pyStr email) else "")
    (comboHashVal linkedin company_linkedin)

/-- The environment `audit_lead` runs in: the industry taxonomy file, the
behaviour of the network checks (DNS, WHOIS, HTTP - all external), the
persisted duplicate cache and the remote transparency log. -/
structure AuditEnv where
  taxonomy : List (String × List String)
  netWarnings : PyVal → PyVal → List String
  cache : DupCache
  log : List LogRecord

/-- The `AuditResult` dataclass. -/
structure AuditResult where
  passed : Bool
  blocking_errors : List String
  warnings : List String
  duplicate_status : DupStatus
  score_preview : ScorePreview

/-- `audit_lead` from the source: every validator in source order, then
the duplicate check (appending a blocking error only for a
non-resubmittable duplicate) and the score preview. -/
def audit_lead (env : AuditEnv) (lead : Lead) (duplicate_mode : String := "online")
    (run_network_checks : Bool := true) : AuditResult :=
  let desc := validate_description (leadGetD lead "description" (.str ""))
  let dup := DuplicateChecker_checkVal duplicate_mode env.cache env.log
    (leadGetD lead "email" (.str "")) (leadGetD lead "linkedin" (.str ""))
    (leadGetD lead "company_linkedin" (.str ""))
  let blocking_errors :=
    validate_attestation lead ++
    validate_required_fields lead ++
    validate_source_provenance lead ++
    validate_role (leadGetD lead "role" (.str "")) ++
    desc.1 ++
    validate_email (leadGetD lead "email" (.str "")) (leadGetD lead "first" (.str ""))
      (leadGetD lead "last" (.str "")) ++
    validate_employee_count (leadGetD lead "employee_count" (.str "")) ++
    validate_industry_pair env.taxonomy (leadGetD lead "industry" (.str ""))
      (leadGetD lead "sub_industry" (.str "")) ++
    validate_linkedin_urls (leadGetD lead "linkedin" (.str ""))
      (leadGetD lead "company_linkedin" (.str "")) ++
    validate_location (leadGetD lead "city" (.str "")) (leadGetD lead "country" (.str ""))
      (leadGetD lead "region" (leadGetD lead "state" (.str ""))) ++
    (if dup.is_duplicate && !dup.can_resubmit then ["duplicate:" ++ dup.reason] else [])
  let warnings :=
    (if run_network_checks then
      env.netWarnings (leadGetD lead "website" (.str "")) (leadGetD lead "email" (.str ""))
     else []) ++ desc.2
  ⟨blocking_errors.isEmpty, blocking_errors, warnings, dup, preview_score lead⟩

/-! ### Helper lemmas for the role-typo analysis (claim C1) -/

theorem mem_ite_singleton {c : Prop} [Decidable c] {a s : String}
    (h : s ∈ (if c then [a] else [])) : s = a := by
  split at h
  · simpa using h
  · simp at h

theorem take10_append_left (l1 l2 : List Char) (h : 10 ≤ l1.length) :
    (l1 ++ l2).take 10 = l1.take 10 := by
  rw [List.take_append_eq_append_take, Nat.sub_eq_zero_of_le h, List.take_zero,
    List.append_nil]

theorem take10_typoCode (t c : String) :
    (typoCode t c).data.take 10 = "role_typo:".data := by
  simp only [typoCode, String.data_append, List.append_assoc]
  rw [take10_append_left _ _ (by decide)]
  decide

theorem append_dash_inj (l1 : List Char) (r1 l2 r2 : List Char)
    (h1 : ∀ x ∈ l1, x ≠ '-') (h2 : ∀ x ∈ l2, x ≠ '-')
    (h : l1 ++ '-' :: r1 = l2 ++ '-' :: r2) : l1 = l2 ∧ r1 = r2 := by
  induction l1 generalizing l2 with
  | nil =>
    cases l2 with
    | nil => simpa using h
    | cons y ys =>
      exfalso
      simp only [List.nil_append, List.cons_append, List.cons.injEq] at h
      exact h2 y (by simp) h.1.symm
  | cons x xs ih =>
    cases l2 with
    | nil =>
      exfalso
      simp only [List.nil_append, List.cons_append, List.cons.injEq] at h
      exact h1 x (by simp) h.1
    | cons y ys =>
      simp only [List.cons_append, List.cons.injEq] at h
      obtain ⟨hxy, hrest⟩ := h
      obtain ⟨he, hr⟩ := ih ys (fun z hz => h1 z (by simp [hz]))
        (fun z hz => h2 z (by simp [hz])) hrest
      exact ⟨by simp [hxy, he], hr⟩

theorem typoCode_inj (t1 c1 t2 c2 : String)
    (h1 : ∀ x ∈ t1.data, x ≠ '-') (h2 : ∀ x ∈ t2.data, x ≠ '-')
    (h : typoCode t1 c1 = typoCode t2 c2) : t1 = t2 ∧ c1 = c2 := by
  have hd := congrArg String.data h
  simp only [typoCode, String.data_append, List.append_assoc] at hd
  have hd2 := List.append_cancel_left hd
  simp only [List.cons_append, List.nil_append] at hd2
  obtain ⟨ht, hr⟩ := append_dash_inj t1.data ('>' :: c1.data) t2.data ('>' :: c2.data)
    h1 h2 hd2
  refine ⟨String.ext ht, String.ext ?_⟩
  injection hr

/-- Every misspelling in the typo dictionary is free of `-` (so the code
strings `role_typo:t->c` determine `t` uniquely). -/
theorem role_typos_dash_free :
    ∀ p ∈ ROLE_TYPOS, ∀ t ∈ p.2, ∀ x ∈ t.data, x ≠ '-' := by decide

theorem roleErrsA_not_typo (r : String) :
    ∀ s ∈ roleErrsA r, s.data.take 10 ≠ "role_typo:".data := by
  intro s hs
  simp only [roleErrsA, List.mem_append] at hs
  rcases hs with ((((((((((((h|h)|h)|h)|h)|h)|h)|h)|h)|h)|h)|h)|h)
  all_goals try split at h
  all_goals try (simp only [List.not_mem_nil] at h)
  all_goals simp only [List.mem_singleton] at h
  all_goals subst h
  all_goals first
    | decide
    | (simp only [String.data_append, List.append_assoc];
       rw [take10_append_left _ _ (by decide)]; decide)

theorem roleErrsB_not_typo (r : String) :
    ∀ s ∈ roleErrsB r, s.data.take 10 ≠ "role_typo:".data := by
  intro s hs
  simp only [roleErrsB, List.mem_append] at hs
  rcases hs with ((((((((((((((h|h)|h)|h)|h)|h)|h)|h)|h)|h)|h)|h)|h)|h)|h)
  all_goals try split at h
  all_goals try split at h
  all_goals try (simp only [List.not_mem_nil] at h)
  all_goals simp only [List.mem_singleton] at h
  all_goals subst h
  all_goals first
    | decide
    | (simp only [String.data_append, List.append_assoc];
       rw [take10_append_left _ _ (by decide)]; decide)

theorem validate_role_str_ne (role : String) (h : role ≠ "") :
    validate_role (.str role) = roleChecks (pyStrip role) := by
  have he : role.isEmpty = false := by
    rw [Bool.eq_false_iff]
    intro hc
    exact h ((String.isEmpty_iff role).mp hc)
  simp [validate_role, pyTruthy, pyStr, he]

/-- C1 counterexample: `"maneger manger"` contains the dictionary
misspelling `maneger` (of `manager`) as a whole word, yet no
`role_typo:maneger->manager` code is emitted - the inner loop `break`s
after the earlier-listed `manger`. -/
theorem c1_counterexample :
    "maneger" ∈ (ROLE_TYPOS.lookup "manager").getD [] ∧
    "maneger" ∈ wordsOf (lowerStr (pyStrip "maneger manger")) ∧
    typoCode "maneger" "manager" ∉ validate_role (.str "maneger manger") := by
  decide

/-- The canonical words of the typo dictionary are pairwise distinct
(Python dict keys are unique), so each canonical determines its
misspelling list. -/
theorem role_typos_keys_nodup : (ROLE_TYPOS.map Prod.fst).Nodup := by decide

theorem assoc_key_unique {l : List (String × List String)}
    (hnd : (l.map Prod.fst).Nodup) {a : String} {b1 b2 : List String}
    (h1 : (a, b1) ∈ l) (h2 : (a, b2) ∈ l) : b1 = b2 := by
  induction l with
  | nil => simp at h1
  | cons p rest ih =>
    simp only [List.map_cons, List.nodup_cons] at hnd
    rcases List.mem_cons.mp h1 with h1' | h1' <;> rcases List.mem_cons.mp h2 with h2' | h2'
    · have := h1'.trans h2'.symm
      exact ((Prod.mk.injEq _ _ _ _).mp this).2
    · exfalso
      exact hnd.1 (List.mem_map.mpr ⟨(a, b2), h2', by rw [← h1']⟩)
    · exfalso
      exact hnd.1 (List.mem_map.mpr ⟨(a, b1), h1', by rw [← h2']⟩)
    · exact ih hnd.2 h1' h2'

/-- C1 (amended): for each canonical word, the code `role_typo:t->c` is
emitted exactly for the first misspelling `t` (in dictionary list order)
of `c` that occurs as a whole word of the lowercased role; any other
listed misspelling of the same canonical - even one that is also present
as a whole word - gets no code of its own (the inner loop breaks); and a
misspelling that does not occur as a whole word (in particular one
occurring only inside a longer word) never produces its code. -/
theorem c1_typo_codes :
    (∀ (role c t : String) (ts : List String), (c, ts) ∈ ROLE_TYPOS →
      ts.find? (fun x => (wordsOf (lowerStr (pyStrip role))).contains x) = some t →
      typoCode t c ∈ validate_role (.str role)) ∧
    (∀ (role c t : String) (ts : List String), (c, ts) ∈ ROLE_TYPOS → t ∈ ts →
      t ∉ wordsOf (lowerStr (pyStrip role)) →
      typoCode t c ∉ validate_role (.str role)) ∧
    (∀ (role c t t' : String) (ts : List String), (c, ts) ∈ ROLE_TYPOS →
      ts.find? (fun x => (wordsOf (lowerStr (pyStrip role))).contains x) = some t →
      t' ∈ ts → t' ≠ t →
      typoCode t' c ∉ validate_role (.str role)) := by
  refine ⟨?_, ?_, ?_⟩
  · intro role c t ts hdict hfind
    by_cases hr : role = ""
    · exfalso
      subst hr
      have hp := List.find?_some hfind
      have hw : wordsOf (lowerStr (pyStrip "")) = [] := rfl
      rw [hw] at hp
      simp at hp
    · rw [validate_role_str_ne role hr]
      simp only [roleChecks]
      refine List.mem_append.mpr (Or.inl (List.mem_append.mpr (Or.inr ?_)))
      simp only [typoErrors]
      refine List.mem_flatMap.mpr ⟨(c, ts), hdict, ?_⟩
      rw [hfind]
      simp
  · intro role c t ts hdict ht hnw hmem
    by_cases hr : role = ""
    · subst hr
      have hv : validate_role (.str "") = ["role_empty"] := rfl
      rw [hv] at hmem
      have heq := List.mem_singleton.mp hmem
      have hq := take10_typoCode t c
      rw [heq] at hq
      exact absurd hq (by decide)
    · rw [validate_role_str_ne role hr] at hmem
      simp only [roleChecks, List.mem_append] at hmem
      rcases hmem with (hA | hT) | hB
      · exact roleErrsA_not_typo _ _ hA (take10_typoCode t c)
      · simp only [typoErrors] at hT
        obtain ⟨⟨c2, ts2⟩, hp, hin⟩ := List.mem_flatMap.mp hT
        cases hf : ts2.find? (fun x => (wordsOf (lowerStr (pyStrip role))).contains x) with
        | none => rw [hf] at hin; simp at hin
        | some t2 =>
          rw [hf] at hin
          have heq := List.mem_singleton.mp hin
          have h1 := role_typos_dash_free (c, ts) hdict t ht
          have h2 := role_typos_dash_free (c2, ts2) hp t2 (List.mem_of_find?_eq_some hf)
          obtain ⟨ht12, _⟩ := typoCode_inj t c t2 c2 h1 h2 heq
          have hmemw := List.find?_some hf
          simp only at hmemw
          have : t2 ∈ wordsOf (lowerStr (pyStrip role)) := List.mem_of_elem_eq_true hmemw
          rw [← ht12] at this
          exact hnw this
      · exact roleErrsB_not_typo _ _ hB (take10_typoCode t c)
  · intro role c t t' ts hdict hfind ht' hne hmem
    by_cases hr : role = ""
    · subst hr
      have hp := List.find?_some hfind
      have hw : wordsOf (lowerStr (pyStrip "")) = [] := rfl
      rw [hw] at hp
      simp at hp
    · rw [validate_role_str_ne role hr] at hmem
      simp only [roleChecks, List.mem_append] at hmem
      rcases hmem with (hA | hT) | hB
      · exact roleErrsA_not_typo _ _ hA (take10_typoCode t' c)
      · simp only [typoErrors] at hT
        obtain ⟨⟨c2, ts2⟩, hp, hin⟩ := List.mem_flatMap.mp hT
        cases hf : ts2.find? (fun x => (wordsOf (lowerStr (pyStrip role))).contains x) with
        | none => rw [hf] at hin; simp at hin
        | some t2 =>
          rw [hf] at hin
          have heq := List.mem_singleton.mp hin
          have h1 := role_typos_dash_free (c, ts) hdict t' ht'
          have h2 := role_typos_dash_free (c2, ts2) hp t2 (List.mem_of_find?_eq_some hf)
          obtain ⟨ht12, hc12⟩ := typoCode_inj t' c t2 c2 h1 h2 heq
          rw [← hc12] at hp
          have hts : ts = ts2 := assoc_key_unique role_typos_keys_nodup hdict hp
          rw [← hts] at hf
          have htt2 : t = t2 := Option.some.inj (hfind.symm.trans hf)
          exact hne (ht12.trans htt2.symm)
      · exact roleErrsB_not_typo _ _ hB (take10_typoCode t' c)

/-- C1 witness: `"Sales Manger"` produces `role_typo:manger->manager`;
in `"Sales Mangerial Lead"` the misspelling occurs only inside a longer
word and produces no code; and in `"maneger manger"` the later-listed
`maneger`, though present as a whole word, is suppressed by the break
after `manger`. -/
theorem c1_typo_codes_witness :
    typoCode "manger" "manager" ∈ validate_role (.str "Sales Manger") ∧
    typoCode "manger" "manager" ∉ validate_role (.str "Sales Mangerial Lead") ∧
    typoCode "maneger" "manager" ∉ validate_role (.str "maneger manger") :=
  ⟨c1_typo_codes.1 "Sales Manger" "manager" "manger" (ROLE_TYPOS[0]!.2)
    (by decide) (by decide),
   c1_typo_codes.2.1 "Sales Mangerial Lead" "manager" "manger" (ROLE_TYPOS[0]!.2)
    (by decide) (by decide) (by decide),
   c1_typo_codes.2.2 "maneger manger" "manager" "manger" "maneger" (ROLE_TYPOS[0]!.2)
    (by decide) (by decide) (by decide) (by decide)⟩

/-- C9: a falsy role (empty string, or the `""` default for a missing
key) short-circuits to exactly `["role_empty"]`; none of the other role
checks run, so no other `role_*` code can appear. -/
theorem c9_empty_role (v : PyVal) (h : pyTruthy v = false) :
    validate_role v = ["role_empty"] := by
  simp [validate_role, h]

/-- C9 witness: the empty-string role. -/
theorem c9_empty_role_witness :
    pyTruthy (.str "") = false ∧ validate_role (.str "") = ["role_empty"] :=
  ⟨rfl, c9_empty_role (.str "") rfl⟩

/-- C10: `"CEO and Director"` contains exactly one C-suite title as a
whole word, but the substring-based check also finds `cto` inside
`director` and emits `role_multiple_csuite:ceo,cto`. -/
theorem c10_csuite_substring :
    "role_multiple_csuite:ceo,cto" ∈ validate_role (.str "CEO and Director") ∧
    (wordsOf (lowerStr "CEO and Director")).filter
      (fun w => ROLE_CSUITE_TITLES.contains w) = ["ceo"] := by
  decide

theorem icp_bonus_cases (a b c d : PyVal) :
    (check_icp_match a b c d).bonus = 0 ∨ (check_icp_match a b c d).bonus = 50 := by
  unfold check_icp_match
  split <;> simp

theorem icp_not_matched_bonus (a b c d : PyVal)
    (h : (check_icp_match a b c d).matched = false) :
    (check_icp_match a b c d).bonus = 0 := by
  unfold check_icp_match at h ⊢
  split at h <;> simp_all

/-- C3: `preview_score`'s ICP bonus is always 0 or 50; a non-negative
size adjustment is summed with the bonus and capped at 50, a negative
one is added after capping the bonus alone; an ICP match plus the +50
small-hub bonus still yields 50; and a valid employee bucket with
minimum above 1,000 (other than 5,001-10,000), no hub and no ICP match
yields exactly -10. -/
theorem c3_preview_score (lead : Lead) :
    ((preview_score lead).icp_bonus = 0 ∨ (preview_score lead).icp_bonus = 50) ∧
    (0 ≤ (preview_score lead).size_adjustment →
      (preview_score lead).estimated_adjustment =
        min 50 ((preview_score lead).icp_bonus + (preview_score lead).size_adjustment)) ∧
    ((preview_score lead).size_adjustment < 0 →
      (preview_score lead).estimated_adjustment =
        min 50 (preview_score lead).icp_bonus + (preview_score lead).size_adjustment) ∧
    ((preview_score lead).icp_bonus = 50 → (preview_score lead).size_adjustment = 50 →
      (preview_score lead).estimated_adjustment = 50) ∧
    (∀ s : String, leadGetD lead "employee_count" (.str "") = .str s →
      VALID_EMPLOYEE_COUNTS.contains s = true →
      1000 < (parse_employee_count s).1 →
      s ≠ "5,001-10,000" →
      is_major_hub (leadGetD lead "city" (.str ""))
        (leadGetD lead "country" (.str "")) = false →
      (preview_score lead).icp_match = false →
      (preview_score lead).estimated_adjustment = -10) := by
  simp only [preview_score]
  refine ⟨icp_bonus_cases _ _ _ _, ?_, ?_, ?_, ?_⟩
  · intro h
    split
    · omega
    · rw [max_eq_right h]
  · intro h
    split
    · rw [max_eq_left (by omega : (0:Int) ≥ _)]
      simp
    · omega
  · intro h1 h2
    rw [h2] at *
    split
    · omega
    · rw [h1, max_eq_right (by norm_num : (0:Int) ≤ 50)]
      norm_num
  · intro s hec hval hmin hne hhub hicp
    rw [hec]
    have hbonus := icp_not_matched_bonus (leadGetD lead "sub_industry" (.str ""))
      (leadGetD lead "role" (.str "")) (leadGetD lead "country" (.str ""))
      (leadGetD lead "city" (.str "")) hicp
    have hsa : calculate_size_adjustment (.str s) (leadGetD lead "city" (.str ""))
        (leadGetD lead "country" (.str "")) = (-10, "large_company_penalty (>1k employees)") := by
      have hs := List.mem_of_elem_eq_true hval
      fin_cases hs <;> simp_all [calculate_size_adjustment, parse_employee_count] <;> rfl
    rw [hsa, hbonus]
    norm_num

/-- C3 witness: an ICP-matching small fintech company in New York caps at
+50; a 1,001-5,000-employee company with no hub and no ICP match gets
-10. -/
theorem c3_preview_score_witness :
    (preview_score [("sub_industry", PyVal.str "fintech"),
      ("role", PyVal.str "chief risk officer"), ("employee_count", PyVal.str "2-10"),
      ("city", PyVal.str "new york city"),
      ("country", PyVal.str "united states")]).estimated_adjustment = 50 ∧
    (preview_score [("sub_industry", PyVal.str "steel"), ("role", PyVal.str "janitor"),
      ("employee_count", PyVal.str "1,001-5,000"), ("city", PyVal.str "smallville"),
      ("country", PyVal.str "france")]).estimated_adjustment = -10 :=
  ⟨(c3_preview_score _).2.2.2.1 (by decide) (by decide),
   (c3_preview_score _).2.2.2.2 "1,001-5,000" rfl (by decide) (by decide) (by decide)
     (by decide) (by decide)⟩

/-- C4: in offline mode, a cached `approve` decision for the email hash
blocks resubmission, any other cached decision allows it, and a miss on
both hashes is reported as `new` (never a duplicate). -/
theorem c4_offline_cache (cache : DupCache) (log : List LogRecord) (hE hL : String) :
    (∀ d, hE ≠ "" → cache.email_hashes.lookup hE = some d → d = "approve" →
      checkWithHashes "offline" cache log hE hL =
        ⟨true, "email_already_approved", false, "cache"⟩) ∧
    (∀ d, hE ≠ "" → cache.email_hashes.lookup hE = some d → d ≠ "approve" →
      checkWithHashes "offline" cache log hE hL =
        ⟨false, "email_was_denied_can_resubmit", true, "cache"⟩) ∧
    (cache.email_hashes.lookup hE = none → cache.linkedin_hashes.lookup hL = none →
      checkWithHashes "offline" cache log hE hL = ⟨false, "new", true, "cache"⟩) := by
  refine ⟨?_, ?_, ?_⟩
  · intro d hne hlook hd
    simp [checkWithHashes, hne, hlook, hd]
  · intro d hne hlook hd
    simp [checkWithHashes, hne, hlook, hd]
  · intro hlookE hlookL
    simp [checkWithHashes, hlookE, offlineLinkedinResult, hlookL]

/-- C4 witness: a three-entry scenario over a concrete cache. -/
theorem c4_offline_cache_witness :
    checkWithHashes "offline" ⟨[("h1", "approve"), ("h2", "deny")], []⟩ [] "h1" "l1" =
      ⟨true, "email_already_approved", false, "cache"⟩ ∧
    checkWithHashes "offline" ⟨[("h1", "approve"), ("h2", "deny")], []⟩ [] "h2" "l1" =
      ⟨false, "email_was_denied_can_resubmit", true, "cache"⟩ ∧
    checkWithHashes "offline" ⟨[("h1", "approve"), ("h2", "deny")], []⟩ [] "h3" "l1" =
      ⟨false, "new", true, "cache"⟩ :=
  ⟨(c4_offline_cache _ _ "h1" "l1").1 "approve" (by decide) (by decide) rfl,
   (c4_offline_cache _ _ "h2" "l1").2.1 "deny" (by decide) (by decide) (by decide),
   (c4_offline_cache _ _ "h3" "l1").2.2 (by decide) (by decide)⟩

/-- C5 counterexample: the email hash has no `CONSENSUS_RESULT` but a
`SUBMISSION` exists, yet the linkedin-combo consensus (checked first)
returns `linkedin_combo_already_approved`, not
`email_pending_processing`. -/
theorem c5_counterexample :
    consensusByEmail [⟨"CONSENSUS_RESULT", "other", "lh", "approve", 1⟩,
      ⟨"SUBMISSION", "eh", "", "", 2⟩] "eh" = none ∧
    hasSubmission [⟨"CONSENSUS_RESULT", "other", "lh", "approve", 1⟩,
      ⟨"SUBMISSION", "eh", "", "", 2⟩] "eh" = true ∧
    checkWithHashes "online" ⟨[], []⟩ [⟨"CONSENSUS_RESULT", "other", "lh", "approve", 1⟩,
      ⟨"SUBMISSION", "eh", "", "", 2⟩] "eh" "lh" =
      ⟨true, "linkedin_combo_already_approved", false, "online"⟩ := by
  decide

/-- C5 (amended): with no email consensus and a pending submission, the
result is `email_pending_processing` provided the linkedin combo hash
has no approved consensus (the code consults the linkedin hash before
the pending check); and when an email consensus row exists the result is
one of the two email reasons, so the linkedin hash is consulted only on
an email miss. -/
theorem c5_pending_and_linkedin_order :
    (∀ (cache : DupCache) (log : List LogRecord) (hE hL : String),
      hE ≠ "" → consensusByEmail log hE = none → hasSubmission log hE = true →
      (hL = "" ∨ ∀ r, consensusByLinkedin log hL = some r → r.final_decision ≠ "approve") →
      checkWithHashes "online" cache log hE hL =
        ⟨true, "email_pending_processing", false, "online"⟩) ∧
    (∀ (cache : DupCache) (log : List LogRecord) (hE hL : String) (r : LogRecord),
      hE ≠ "" → consensusByEmail log hE = some r →
      (checkWithHashes "online" cache log hE hL).reason = "email_already_approved" ∨
      (checkWithHashes "online" cache log hE hL).reason = "email_was_denied_can_resubmit") := by
  constructor
  · intro cache log hE hL hne hcons hsub hli
    by_cases hL0 : hL = ""
    · simp [checkWithHashes, hne, hcons, hL0, onlineTailResult, hsub]
    · cases hf : consensusByLinkedin log hL with
      | none => simp [checkWithHashes, hne, hcons, hL0, hf, onlineTailResult, hsub]
      | some r =>
        have hrd : r.final_decision ≠ "approve" := by
          rcases hli with h0 | hall
          · exact absurd h0 hL0
          · exact hall r hf
        simp [checkWithHashes, hne, hcons, hL0, hf, hrd, onlineTailResult, hsub]
  · intro cache log hE hL r hne hcons
    simp only [checkWithHashes]
    simp [hne, hcons]
    split <;> simp

/-- C5 witness: the amended pending case and the email-priority case at
concrete logs. -/
theorem c5_pending_witness :
    checkWithHashes "online" ⟨[], []⟩ [⟨"SUBMISSION", "eh", "", "", 1⟩] "eh" "" =
      ⟨true, "email_pending_processing", false, "online"⟩ ∧
    ((checkWithHashes "online" ⟨[], []⟩ [⟨"CONSENSUS_RESULT", "eh", "", "deny", 1⟩]
        "eh" "lh").reason = "email_already_approved" ∨
     (checkWithHashes "online" ⟨[], []⟩ [⟨"CONSENSUS_RESULT", "eh", "", "deny", 1⟩]
        "eh" "lh").reason = "email_was_denied_can_resubmit") :=
  ⟨c5_pending_and_linkedin_order.1 ⟨[], []⟩ [⟨"SUBMISSION", "eh", "", "", 1⟩] "eh" ""
    (by decide) (by decide) (by decide) (Or.inl rfl),
   c5_pending_and_linkedin_order.2 ⟨[], []⟩ [⟨"CONSENSUS_RESULT", "eh", "", "deny", 1⟩]
    "eh" "lh" ⟨"CONSENSUS_RESULT", "eh", "", "deny", 1⟩ (by decide) (by decide)⟩

/-- C6: across both modes and all states, resubmission is refused exactly
for the two irrevocable-approval reasons and the in-flight-submission
reason; `new` and `email_was_denied_can_resubmit` always allow
resubmission. -/
theorem c6_can_resubmit_invariant (mode : String) (cache : DupCache)
    (log : List LogRecord) (email linkedin company_linkedin : String) :
    ((DuplicateChecker_check mode cache log email linkedin company_linkedin).can_resubmit
        = false ↔
      (DuplicateChecker_check mode cache log email linkedin company_linkedin).reason ∈
        ["email_already_approved", "linkedin_combo_already_approved",
         "email_pending_processing"]) ∧
    ((DuplicateChecker_check mode cache log email linkedin company_linkedin).reason = "new" ∨
     (DuplicateChecker_check mode cache log email linkedin company_linkedin).reason =
        "email_was_denied_can_resubmit" →
      (DuplicateChecker_check mode cache log email linkedin company_linkedin).can_resubmit
        = true) := by
  unfold DuplicateChecker_check checkWithHashes onlineTailResult offlineLinkedinResult
  repeat' split
  all_goals simp

/-- C6 witness: a concrete offline approve-hit refuses resubmission with
an approval reason. -/
theorem c6_can_resubmit_invariant_witness :
    (DuplicateChecker_check "banana" ⟨[], []⟩ [] "" "" "").can_resubmit = false ↔
      (DuplicateChecker_check "banana" ⟨[], []⟩ [] "" "" "").reason ∈
        ["email_already_approved", "linkedin_combo_already_approved",
         "email_pending_processing"] :=
  (c6_can_resubmit_invariant "banana" ⟨[], []⟩ [] "" "" "").1

/-- C7 counterexample: `validate_attestation` performs two
string-presence checks, not four - an empty record yields exactly two
`missing_field` codes (plus the three boolean-attestation codes). -/
theorem c7_counterexample :
    validate_attestation [] =
      ["missing_field:wallet_ss58", "missing_field:terms_version_hash",
       "attestation_false_or_missing:lawful_collection",
       "attestation_false_or_missing:no_restricted_sources",
       "attestation_false_or_missing:license_granted"] ∧
    ((validate_attestation []).filter
      (fun s => s.data.take 14 == "missing_field:".data)).length = 2 := by
  decide

/-- C7 (amended): `validate_attestation` performs two string-presence
checks plus three boolean checks; each boolean field must be the exact
boolean `True`, with `attestation_false_or_missing:<field>` emitted for
false, absent or non-boolean values; and a record missing `wallet_ss58`
with a non-`True` `license_granted` gets both blocking errors from
`audit_lead`. -/
theorem c7_attestation (lead : Lead) :
    (∀ f, f ∈ ["lawful_collection", "no_restricted_sources", "license_granted"] →
      (("attestation_false_or_missing:" ++ f) ∈ validate_attestation lead ↔
        leadGet lead f ≠ some (.bool true))) ∧
    (leadGet lead "wallet_ss58" = none →
      leadGet lead "license_granted" ≠ some (.bool true) →
      ∀ (env : AuditEnv) (mode : String) (net : Bool),
        "missing_field:wallet_ss58" ∈ (audit_lead env lead mode net).blocking_errors ∧
        "attestation_false_or_missing:license_granted" ∈
          (audit_lead env lead mode net).blocking_errors) := by
  constructor
  · intro f hf
    fin_cases hf <;>
      simp only [validate_attestation, List.flatMap_cons, List.flatMap_nil,
        List.append_nil, List.mem_append] <;>
      split_ifs <;> simp_all
  · intro hw hl env mode net
    have hw' : lead.lookup "wallet_ss58" = none := hw
    have h1 : "missing_field:wallet_ss58" ∈ validate_attestation lead := by
      simp [validate_attestation, leadGetD, leadGet, hw', pyStr, pyStrip, stripList]
      rfl
    have h2 : "attestation_false_or_missing:license_granted" ∈ validate_attestation lead := by
      simp only [validate_attestation, List.flatMap_cons, List.flatMap_nil,
        List.append_nil, List.mem_append]
      refine Or.inr (Or.inr ?_)
      simp [hl]
    constructor
    · simp only [audit_lead]
      exact List.mem_append_left _ (List.mem_append_left _ (List.mem_append_left _
        (List.mem_append_left _ (List.mem_append_left _ (List.mem_append_left _
        (List.mem_append_left _ (List.mem_append_left _ (List.mem_append_left _
        (List.mem_append_left _ h1)))))))))
    · simp only [audit_lead]
      exact List.mem_append_left _ (List.mem_append_left _ (List.mem_append_left _
        (List.mem_append_left _ (List.mem_append_left _ (List.mem_append_left _
        (List.mem_append_left _ (List.mem_append_left _ (List.mem_append_left _
        (List.mem_append_left _ h2)))))))))

/-- C7 witness: the empty record, audited offline without network
checks. -/
theorem c7_attestation_witness :
    ("attestation_false_or_missing:license_granted" ∈ validate_attestation [] ↔
      leadGet [] "license_granted" ≠ some (.bool true)) ∧
    ("missing_field:wallet_ss58" ∈
      (audit_lead ⟨[], fun _ _ => [], ⟨[], []⟩, []⟩ [] "offline" false).blocking_errors ∧
     "attestation_false_or_missing:license_granted" ∈
      (audit_lead ⟨[], fun _ _ => [], ⟨[], []⟩, []⟩ [] "offline" false).blocking_errors) :=
  ⟨(c7_attestation []).1 "license_granted" (by decide),
   (c7_attestation []).2 rfl (by decide) ⟨[], fun _ _ => [], ⟨[], []⟩, []⟩ "offline" false⟩

/-- C8: `audit_lead` is a pure function of the lead, the mode and the
environment (taxonomy file, network behaviour, cache state, remote log):
two runs under equal environments produce identical blocking-error and
warning lists, in content and order. -/
theorem c8_audit_deterministic (env1 env2 : AuditEnv) (lead : Lead) (mode : String)
    (net : Bool) (h : env1 = env2) :
    (audit_lead env1 lead mode net).blocking_errors =
      (audit_lead env2 lead mode net).blocking_errors ∧
    (audit_lead env1 lead mode net).warnings =
      (audit_lead env2 lead mode net).warnings := by
  subst h
  exact ⟨rfl, rfl⟩

/-- C8 witness: a concrete double run. -/
theorem c8_audit_deterministic_witness :
    (audit_lead ⟨[], fun _ _ => [], ⟨[], []⟩, []⟩ [("role", .str "CEO")] "offline"
      false).blocking_errors =
    (audit_lead ⟨[], fun _ _ => [], ⟨[], []⟩, []⟩ [("role", .str "CEO")] "offline"
      false).blocking_errors ∧
    (audit_lead ⟨[], fun _ _ => [], ⟨[], []⟩, []⟩ [("role", .str "CEO")] "offline"
      false).warnings =
    (audit_lead ⟨[], fun _ _ => [], ⟨[], []⟩, []⟩ [("role", .str "CEO")] "offline"
      false).warnings :=
  c8_audit_deterministic _ _ [("role", .str "CEO")] "offline" false rfl

/-! ### Helper lemmas for URL normalization (claim C2) -/

theorem toNat_ofNat_lt (n : Nat) (h : n < 0xd800) : (Char.ofNat n).toNat = n := by
  simp [Char.ofNat, Char.toNat, Nat.isValidChar, h, Char.ofNatAux, UInt32.toNat]

theorem not_ws_of_ge97 (d : Char) (h : 97 ≤ d.toNat) : isPyWs d = false := by
  simp only [isPyWs, Bool.or_eq_false_iff, beq_eq_false_iff_ne]
  refine ⟨⟨⟨⟨⟨?_, ?_⟩, ?_⟩, ?_⟩, ?_⟩, ?_⟩ <;>
    · intro he
      subst he
      exact absurd h (by decide)

theorem lowerChar_fixed_of_lower (c : Char) : lowerChar (lowerChar c) = lowerChar c := by
  unfold lowerChar
  split
  · next h =>
    simp only [Bool.and_eq_true, decide_eq_true_eq] at h
    have h65 : 65 ≤ c.toNat := h.1
    have h90 : c.toNat ≤ 90 := h.2
    have hv : (Char.ofNat (c.toNat + 32)).toNat = c.toNat + 32 :=
      toNat_ofNat_lt _ (by omega)
    rw [if_neg]
    intro hc
    simp only [Bool.and_eq_true, decide_eq_true_eq] at hc
    have h90d : (Char.ofNat (c.toNat + 32)).toNat ≤ 90 := hc.2
    omega
  · rfl

theorem lowerChar_not_ws (c : Char) (h : isPyWs c = false) :
    isPyWs (lowerChar c) = false := by
  unfold lowerChar
  split
  · next hr =>
    simp only [Bool.and_eq_true, decide_eq_true_eq] at hr
    have h65 : 65 ≤ c.toNat := hr.1
    have h90 : c.toNat ≤ 90 := hr.2
    have hv : (Char.ofNat (c.toNat + 32)).toNat = c.toNat + 32 :=
      toNat_ofNat_lt _ (by omega)
    exact not_ws_of_ge97 _ (by omega)
  · exact h

theorem dropWhile_all_false {p : Char → Bool} {l : List Char}
    (h : ∀ c ∈ l, p c = false) : l.dropWhile p = l := by
  cases l with
  | nil => rfl
  | cons c rest =>
    rw [List.dropWhile_cons, if_neg]
    simp [h c (by simp)]

theorem stripList_eq_self {l : List Char} (h : ∀ c ∈ l, isPyWs c = false) :
    stripList l = l := by
  unfold stripList
  rw [dropWhile_all_false h, dropWhile_all_false (fun c hc => h c (List.mem_reverse.mp hc)),
    List.reverse_reverse]

theorem map_eq_self {f : Char → Char} {l : List Char} (h : ∀ c ∈ l, f c = c) :
    l.map f = l := by
  induction l with
  | nil => rfl
  | cons c rest ih => simp [h c (by simp), ih (fun c hc => h c (by simp [hc]))]

theorem takeWhile_append_all {p : Char → Bool} {l1 l2 : List Char}
    (h : ∀ c ∈ l1, p c = true) :
    (l1 ++ l2).takeWhile p = l1 ++ l2.takeWhile p := by
  rw [List.takeWhile_append, if_pos]
  rw [List.takeWhile_eq_self_iff.mpr h]

theorem collapse_no_slash {l : List Char} (h : ∀ c ∈ l, c ≠ '/') :
    collapseSlashes l = l := by
  induction l with
  | nil => rfl
  | cons c rest ih =>
    unfold collapseSlashes at ih ⊢
    rw [List.foldr_cons, ih (fun x hx => h x (by simp [hx]))]
    rw [if_neg]
    simp [h c (by simp)]

theorem rstrip_append_no_slash (l g : List Char) (hne : g ≠ [])
    (h : ∀ c ∈ g, c ≠ '/') : rstripSlashes (l ++ g) = l ++ g := by
  unfold rstripSlashes
  rw [List.reverse_append]
  cases hg : g.reverse with
  | nil => exact absurd (by simpa using hg) hne
  | cons d rest =>
    have hd : d ∈ g := by
      have : d ∈ g.reverse := by rw [hg]; simp
      exact List.mem_reverse.mp this
    rw [List.cons_append, List.dropWhile_cons, if_neg (by simp [h d hd])]
    rw [← List.cons_append, ← hg, List.reverse_append, List.reverse_reverse,
      List.reverse_reverse]

theorem isPrefixOf_append_self (l m : List Char) : l.isPrefixOf (l ++ m) = true := by
  simp [List.isPrefixOf_iff_prefix]

theorem findCapture_append_self (P : List Char) (hP : P ≠ []) (c : Char)
    (g : List Char) (hc : ∀ x ∈ c :: g, x ≠ '/') :
    findCapture P (P ++ c :: g) = some (c :: g) := by
  cases P with
  | nil => exact absurd rfl hP
  | cons p₀ P' =>
    rw [List.cons_append]
    unfold findCapture
    rw [if_pos]
    · have hdrop : (p₀ :: (P' ++ c :: g)).drop (p₀ :: P').length = c :: g := by
        rw [← List.cons_append]
        exact List.drop_left _ _
      rw [hdrop]
      have htw : (c :: g).takeWhile (fun x => x != '/') = c :: g :=
        List.takeWhile_eq_self_iff.mpr (fun x hx => by simp [hc x hx])
      rw [htw]
      simp
    · rw [← List.cons_append]
      exact isPrefixOf_append_self _ _

theorem normalize_fixed_point (t pat : String)
    (hpat : t = "profile" ∧ pat = "linkedin.com/in/" ∨
            t = "company" ∧ pat = "linkedin.com/company/")
    (g : List Char) (hne : g ≠ [])
    (hs : ∀ c ∈ g, c ≠ '/') (hq : ∀ c ∈ g, c ≠ '?') (hh : ∀ c ∈ g, c ≠ '#')
    (hlow : ∀ c ∈ g, lowerChar c = c) (hws : ∀ c ∈ g, isPyWs c = false) :
    normalize_linkedin_url (pat ++ (⟨g⟩ : String)) t = pat ++ ⟨g⟩ := by
  obtain ⟨c, g', rfl⟩ : ∃ c g', g = c :: g' := by
    cases g with
    | nil => exact absurd rfl hne
    | cons c g' => exact ⟨c, g', rfl⟩
  have hcg : ∀ x ∈ c :: g', x ≠ '/' := hs
  rcases hpat with ⟨ht, hp⟩ | ⟨ht, hp⟩
  all_goals
    have hdata : (pat ++ (⟨c :: g'⟩ : String)).data = pat.data ++ c :: g' := by
      simp [String.data_append]
    have hEmp : (pat ++ (⟨c :: g'⟩ : String)).isEmpty = false := by
      rw [Bool.eq_false_iff]
      intro hce
      have hd := congrArg String.data ((String.isEmpty_iff _).mp hce)
      rw [hdata] at hd
      simp at hd
    have hallws : ∀ x ∈ pat.data ++ c :: g', isPyWs x = false := by
      intro x hx
      rcases List.mem_append.mp hx with hx | hx
      · exact (by rw [hp]; decide : ∀ x ∈ pat.data, isPyWs x = false) x hx
      · exact hws x hx
    have hstrip : pyStrip (pat ++ (⟨c :: g'⟩ : String)) = pat ++ (⟨c :: g'⟩ : String) := by
      apply String.ext
      show stripList _ = _
      rw [hdata]
      exact stripList_eq_self hallws
    have hlower : lowerStr (pat ++ (⟨c :: g'⟩ : String)) = pat ++ (⟨c :: g'⟩ : String) := by
      apply String.ext
      show List.map lowerChar _ = _
      rw [hdata, List.map_append, map_eq_self hlow,
        (by rw [hp]; decide : pat.data.map lowerChar = pat.data)]
    have hd1 : dropScheme (pat.data ++ c :: g') = pat.data ++ c :: g' := by
      rw [hp]
      simp [dropScheme, List.isPrefixOf]
    have hd2 : dropWww (pat.data ++ c :: g') = pat.data ++ c :: g' := by
      rw [hp]
      simp [dropWww, List.isPrefixOf]
    have hpre : ("linkedin.com".data.isPrefixOf (pat.data ++ c :: g')) = true := by
      rw [hp]
      simp [List.isPrefixOf]
    have htake1 : takeUntil '?' (pat.data ++ c :: g') = pat.data ++ c :: g' := by
      unfold takeUntil
      rw [takeWhile_append_all (by rw [hp]; decide)]
      rw [List.takeWhile_eq_self_iff.mpr (fun x hx => by simp [hq x hx])]
    have htake2 : takeUntil '#' (pat.data ++ c :: g') = pat.data ++ c :: g' := by
      unfold takeUntil
      rw [takeWhile_append_all (by rw [hp]; decide)]
      rw [List.takeWhile_eq_self_iff.mpr (fun x hx => by simp [hh x hx])]
    have hcol : collapseSlashes (pat.data ++ c :: g') = pat.data ++ c :: g' := by
      unfold collapseSlashes
      rw [List.foldr_append]
      have hinner : List.foldr
          (fun ch acc => if ch == '/' && acc.head? == some '/' then acc else ch :: acc)
          [] (c :: g') = c :: g' := collapse_no_slash hcg
      rw [hinner]
      have hc' : (c == '/') = false := by simp [hcg c (by simp)]
      rw [hp]
      simp [hc']
      exact hcg c (by simp)
    have hrs : rstripSlashes (pat.data ++ c :: g') = pat.data ++ c :: g' :=
      rstrip_append_no_slash _ _ (by simp) hcg
    have hfind : findCapture pat.data (pat.data ++ c :: g') = some (c :: g') :=
      findCapture_append_self pat.data (by rw [hp]; decide) c g' hcg
    have hcore : schemeHostPart (pat ++ (⟨c :: g'⟩ : String)) = pat.data ++ c :: g' := by
      unfold schemeHostPart
      rw [hstrip, hlower, hdata, hd1, hd2]
    have hclean : cleanedPath (pat ++ (⟨c :: g'⟩ : String)) = pat.data ++ c :: g' := by
      unfold cleanedPath
      rw [hcore, htake1, htake2, hcol, hrs]
    subst hp
    subst ht
    unfold normalize_linkedin_url
    rw [hEmp, if_neg (by decide)]
    rw [hcore, hpre, if_neg (by decide)]
    first
      | rw [if_pos (by decide), hclean, hfind]
      | rw [if_neg (by decide), if_pos (by decide), hclean, hfind]

theorem mem_stripList {c : Char} {l : List Char} (h : c ∈ stripList l) : c ∈ l := by
  unfold stripList at h
  rw [List.mem_reverse] at h
  have h2 := (List.dropWhile_sublist _).subset h
  rw [List.mem_reverse] at h2
  exact (List.dropWhile_sublist _).subset h2

theorem mem_dropScheme {c : Char} {l : List Char} (h : c ∈ dropScheme l) : c ∈ l := by
  unfold dropScheme at h
  split at h
  · exact List.mem_of_mem_drop h
  · split at h
    · exact List.mem_of_mem_drop h
    · exact h

theorem mem_dropWww {c : Char} {l : List Char} (h : c ∈ dropWww l) : c ∈ l := by
  unfold dropWww at h
  split at h
  · exact List.mem_of_mem_drop h
  · exact h

theorem mem_takeUntil {c s : Char} {l : List Char} (h : c ∈ takeUntil s l) :
    c ∈ l ∧ c ≠ s := by
  unfold takeUntil at h
  refine ⟨(List.takeWhile_sublist _).subset h, ?_⟩
  have hp := List.mem_takeWhile_imp h
  simp at hp
  exact hp

theorem mem_collapseSlashes {c : Char} {l : List Char} (h : c ∈ collapseSlashes l) :
    c ∈ l := by
  induction l with
  | nil => simp [collapseSlashes] at h
  | cons a rest ih =>
    unfold collapseSlashes at h ih
    rw [List.foldr_cons] at h
    split at h
    · exact List.mem_cons_of_mem a (ih h)
    · rcases List.mem_cons.mp h with h | h
      · exact h ▸ List.mem_cons_self a rest
      · exact List.mem_cons_of_mem a (ih h)

theorem mem_rstripSlashes {c : Char} {l : List Char} (h : c ∈ rstripSlashes l) :
    c ∈ l := by
  unfold rstripSlashes at h
  rw [List.mem_reverse] at h
  have h2 := (List.dropWhile_sublist _).subset h
  rw [List.mem_reverse] at h2
  exact h2

theorem mem_schemeHostPart {c : Char} {x : String} (h : c ∈ schemeHostPart x) :
    c ∈ (lowerStr (pyStrip x)).data :=
  mem_dropScheme (mem_dropWww h)

theorem mem_cleanedPath {c : Char} {x : String} (h : c ∈ cleanedPath x) :
    c ∈ schemeHostPart x ∧ c ≠ '?' ∧ c ≠ '#' := by
  unfold cleanedPath at h
  have h1 := mem_collapseSlashes (mem_rstripSlashes h)
  obtain ⟨h2, hh⟩ := mem_takeUntil h1
  obtain ⟨h3, hq⟩ := mem_takeUntil h2
  exact ⟨h3, hq, hh⟩

theorem mem_findCapture (P : List Char) {l g : List Char}
    (h : findCapture P l = some g) : g ≠ [] ∧ ∀ c ∈ g, c ∈ l ∧ c ≠ '/' := by
  induction l with
  | nil => simp [findCapture] at h
  | cons a rest ih =>
    unfold findCapture at h
    split at h
    · dsimp only [] at h
      split at h
      · obtain ⟨hne, hmem⟩ := ih h
        exact ⟨hne, fun c hc => ⟨List.mem_cons_of_mem a (hmem c hc).1, (hmem c hc).2⟩⟩
      · next hge =>
        obtain rfl : ((a :: rest).drop P.length).takeWhile (fun x => x != '/') = g :=
          Option.some.inj h
        refine ⟨by simpa using hge, fun c hc => ?_⟩
        refine ⟨List.mem_of_mem_drop ((List.takeWhile_sublist _).subset hc), ?_⟩
        have := List.mem_takeWhile_imp hc
        simpa using this
    · obtain ⟨hne, hmem⟩ := ih h
      exact ⟨hne, fun c hc => ⟨List.mem_cons_of_mem a (hmem c hc).1, (hmem c hc).2⟩⟩


/-- The output of `normalize_linkedin_url` is empty or a canonical
`linkedin.com/in/` (resp. `/company/`) prefix followed by a nonempty
slug free of `/`, `?` and `#` whose characters all come from the
lowercased, stripped input. -/
theorem normalize_shape (x t : String) :
    normalize_linkedin_url x t = "" ∨
    ∃ pat g,
      (t = "profile" ∧ pat = "linkedin.com/in/" ∨
       t = "company" ∧ pat = "linkedin.com/company/") ∧
      normalize_linkedin_url x t = pat ++ (⟨g⟩ : String) ∧ g ≠ [] ∧
      (∀ c ∈ g, c ∈ (lowerStr (pyStrip x)).data) ∧
      (∀ c ∈ g, c ≠ '/') ∧ (∀ c ∈ g, c ≠ '?') ∧ (∀ c ∈ g, c ≠ '#') := by
  unfold normalize_linkedin_url
  split
  · exact Or.inl rfl
  · split
    · exact Or.inl rfl
    · split
      · next hprof =>
        cases hf : findCapture "linkedin.com/in/".data (cleanedPath x) with
        | none => exact Or.inl rfl
        | some g =>
          obtain ⟨hne, hmem⟩ := mem_findCapture _ hf
          refine Or.inr ⟨"linkedin.com/in/", g, Or.inl ⟨by simpa using hprof, rfl⟩,
            rfl, hne, ?_, ?_, ?_, ?_⟩
          · intro c hc
            exact mem_schemeHostPart (mem_cleanedPath (hmem c hc).1).1
          · exact fun c hc => (hmem c hc).2
          · exact fun c hc => (mem_cleanedPath (hmem c hc).1).2.1
          · exact fun c hc => (mem_cleanedPath (hmem c hc).1).2.2
      · split
        · next hcomp =>
          cases hf : findCapture "linkedin.com/company/".data (cleanedPath x) with
          | none => exact Or.inl rfl
          | some g =>
            obtain ⟨hne, hmem⟩ := mem_findCapture _ hf
            refine Or.inr ⟨"linkedin.com/company/", g, Or.inr ⟨by simpa using hcomp, rfl⟩,
              rfl, hne, ?_, ?_, ?_, ?_⟩
            · intro c hc
              exact mem_schemeHostPart (mem_cleanedPath (hmem c hc).1).1
            · exact fun c hc => (hmem c hc).2
            · exact fun c hc => (mem_cleanedPath (hmem c hc).1).2.1
            · exact fun c hc => (mem_cleanedPath (hmem c hc).1).2.2
        · exact Or.inl rfl

/-- Modelled from the claim's wording, for comparison with the code's
check: the host of a URL after stripping the scheme and a leading
`www.` - everything before the first `/`. -/
def urlHost (url : String) : String := ⟨takeUntil '/' (schemeHostPart url)⟩

/-- C2 counterexample: normalization is not idempotent when the captured
slug ends in whitespace, and a URL whose host is not `linkedin.com`
(it merely starts with that string) can still normalize to a non-empty
canonical URL. -/
theorem c2_counterexample :
    normalize_linkedin_url (normalize_linkedin_url "linkedin.com/in/a /b" "profile")
        "profile" ≠
      normalize_linkedin_url "linkedin.com/in/a /b" "profile" ∧
    urlHost "linkedin.comx/linkedin.com/in/a" ≠ "linkedin.com" ∧
    normalize_linkedin_url "linkedin.comx/linkedin.com/in/a" "profile" ≠ "" := by
  refine ⟨?_, ?_, ?_⟩ <;> decide

/-- C2 (amended): `normalize_linkedin_url` is idempotent on every input
containing no whitespace (in general a trailing-whitespace slug is
stripped only by the second pass); and it returns `""` for every URL
that, after lowercasing, stripping and removing the scheme and a leading
`www.`, does not start with the string `linkedin.com` - a `startswith`
test, not an exact host comparison. -/
theorem c2_normalize (x t : String) :
    ((∀ c ∈ x.data, isPyWs c = false) →
      normalize_linkedin_url (normalize_linkedin_url x t) t =
        normalize_linkedin_url x t) ∧
    (("linkedin.com".data.isPrefixOf (schemeHostPart x)) = false →
      normalize_linkedin_url x t = "") := by
  constructor
  · intro hws
    rcases normalize_shape x t with h | ⟨pat, g, hpat, heq, hne, hmem, hs, hq, hh⟩
    · rw [h]
      rfl
    · rw [heq]
      refine normalize_fixed_point t pat hpat g hne hs hq hh ?_ ?_
      · intro c hc
        obtain ⟨c₀, _, rfl⟩ := List.mem_map.mp (hmem c hc)
        exact lowerChar_fixed_of_lower c₀
      · intro c hc
        obtain ⟨c₀, hc₀, rfl⟩ := List.mem_map.mp (hmem c hc)
        exact lowerChar_not_ws c₀ (hws c₀ (mem_stripList hc₀))
  · intro h
    unfold normalize_linkedin_url
    split
    · rfl
    · rw [h]
      simp

/-- C2 witness: a clean profile URL is a fixed point; a non-linkedin
URL normalizes to empty. -/
theorem c2_normalize_witness :
    normalize_linkedin_url
        (normalize_linkedin_url "https://www.linkedin.com/in/Jane-Doe?x=1" "profile")
        "profile" =
      normalize_linkedin_url "https://www.linkedin.com/in/Jane-Doe?x=1" "profile" ∧
    normalize_linkedin_url "https://google.com/in/foo" "profile" = "" :=
  ⟨(c2_normalize "https://www.linkedin.com/in/Jane-Doe?x=1" "profile").1 (by decide),
   (c2_normalize "https://google.com/in/foo" "profile").2 (by decide)⟩

theorem sha256Block_length (h b : List Nat) : (sha256Block h b).length = 8 := rfl

theorem sha256Iter_length (fuel : Nat) (h ws : List Nat) (hh : h.length = 8) :
    (sha256Iter fuel h ws).length = 8 := by
  induction fuel generalizing h ws with
  | zero => simpa [sha256Iter] using hh
  | succ f ih =>
    unfold sha256Iter
    split
    · exact hh
    · exact ih _ _ (sha256Block_length _ _)

/-- An e-mail fingerprint is a 64-character hex digest, never empty:
the nonemptiness hypotheses of the cached-decision theorems hold for
every fingerprint actually produced by `compute_email_hash`. -/
theorem compute_email_hash_ne_empty (email : String) : compute_email_hash email ≠ "" := by
  unfold compute_email_hash sha256Hex
  intro hc
  have hd := congrArg (fun s => s.data.length) hc
  simp only [List.length_flatMap] at hd
  have h8 := sha256Iter_length (bytesToWords (sha256Pad (utf8Bytes (pyStrip (lowerStr email))))).length
    SHA_H0 (bytesToWords (sha256Pad (utf8Bytes (pyStrip (lowerStr email))))) rfl
  set hws := sha256Iter (bytesToWords (sha256Pad (utf8Bytes (pyStrip (lowerStr email))))).length
    SHA_H0 (bytesToWords (sha256Pad (utf8Bytes (pyStrip (lowerStr email))))) with hdef
  cases hcase : hws with
  | nil => rw [hcase] at h8; simp at h8
  | cons a rest =>
    rw [hcase] at hd
    simp [wordBytes, byteHex] at hd

end LeadAuditor
